import Mathlib

/-!
Verification of the invader geolocation resolution pipeline
(`scripts/geolocate_missing.py`) against its natural-language specification.

The pipeline's Python code is shallowly embedded below:

* coordinates are rationals (`ℚ`); the Python code works on IEEE doubles,
  but every claim we settle is a threshold / ordering / selection property
  whose truth only depends on exact comparisons of the values involved;
* the Haversine distance `calculate_distance` is transcendental, so the
  embedding abstracts it as an explicit parameter `dist : Dist` which every
  function that the source feeds with `calculate_distance` receives; all
  theorems quantify over `dist` (or instantiate it with concrete values
  on concrete inputs, mirroring concrete Haversine distances);
* provider network calls are external: a provider's observed response is a
  plain value passed as an argument;
* dictionaries with fixed key sets become structures; Python truthiness of
  a possibly-`None`/zero field is modelled exactly where the source relies
  on it (explicitly noted at each spot).
-/

set_option maxHeartbeats 2000000
set_option maxRecDepth 16000

namespace GeolocateMissing

/-- Signature of `calculate_distance(lat1, lng1, lat2, lng2)`. -/
abbrev Dist := ℚ → ℚ → ℚ → ℚ → ℚ

/-- Python `round(x, 1)` used on distances. Python rounds the nearest binary
double half-to-even; this model rounds half away from zero. The two agree on
every value that is not an exact tie at the second decimal, and no theorem
below evaluates `round01` at a tie. -/
def round01 (q : ℚ) : ℚ := (round (q * 10) : ℤ) / 10

/-- An entry of `CITY_CENTERS`. -/
structure CityCenter where
  lat : ℚ
  lng : ℚ
  name : String
deriving DecidableEq

/-- The `CITY_CENTERS` table (all 142 entries; duplicate keys collapsed the
way a Python dict literal collapses them, i.e. the later value wins). -/
def CITY_CENTERS : List (String × CityCenter) := [
  ("PA", CityCenter.mk 48.8566 2.3522 "Paris"),
  ("LY", CityCenter.mk 45.7640 4.8357 "Lyon"),
  ("MARS", CityCenter.mk 43.2965 5.3698 "Marseille"),
  ("TLS", CityCenter.mk 43.6047 1.4442 "Toulouse"),
  ("BDX", CityCenter.mk 44.8378 (-0.5792) "Bordeaux"),
  ("NA", CityCenter.mk 47.2184 (-1.5536) "Nantes"),
  ("NTE", CityCenter.mk 47.2184 (-1.5536) "Nantes"),
  ("LIL", CityCenter.mk 50.6292 3.0573 "Lille"),
  ("LILE", CityCenter.mk 50.6292 3.0573 "Lille"),
  ("LILL", CityCenter.mk 50.6292 3.0573 "Lille"),
  ("STR", CityCenter.mk 48.5734 7.7521 "Strasbourg"),
  ("STRG", CityCenter.mk 48.5734 7.7521 "Strasbourg"),
  ("MTP", CityCenter.mk 43.6108 3.8767 "Montpellier"),
  ("MPL", CityCenter.mk 43.6108 3.8767 "Montpellier"),
  ("NICE", CityCenter.mk 43.7102 7.2620 "Nice"),
  ("NP", CityCenter.mk 43.7102 7.2620 "Nice"),
  ("AMI", CityCenter.mk 49.8941 2.2958 "Amiens"),
  ("ORLN", CityCenter.mk 47.9029 1.9039 "Orléans"),
  ("DIJ", CityCenter.mk 47.3220 5.0415 "Dijon"),
  ("GRN", CityCenter.mk 45.1885 5.7245 "Grenoble"),
  ("AIX", CityCenter.mk 43.5297 5.4474 "Aix-en-Provence"),
  ("AVI", CityCenter.mk 43.9493 4.8055 "Avignon"),
  ("NIM", CityCenter.mk 43.8367 4.3601 "Nîmes"),
  ("CLR", CityCenter.mk 45.7772 3.0870 "Clermont-Ferrand"),
  ("RN", CityCenter.mk 48.1173 (-1.6778) "Rennes"),
  ("RNS", CityCenter.mk 48.1173 (-1.6778) "Rennes"),
  ("VRS", CityCenter.mk 48.8014 2.1301 "Versailles"),
  ("VER", CityCenter.mk 48.8014 2.1301 "Versailles"),
  ("REIM", CityCenter.mk 49.2583 4.0317 "Reims"),
  ("BAB", CityCenter.mk 43.4832 (-1.5586) "Bayonne-Anglet-Biarritz"),
  ("FTBL", CityCenter.mk 48.4010 2.7024 "Fontainebleau"),
  ("PAU", CityCenter.mk 43.2965 (-0.3708) "Pau"),
  ("PRP", CityCenter.mk 42.6988 2.8948 "Perpignan"),
  ("MTB", CityCenter.mk 44.0171 1.3527 "Montauban"),
  ("CAPF", CityCenter.mk 44.6357 (-1.2479) "Cap Ferret"),
  ("CAZ", CityCenter.mk 43.2141 5.5378 "Cassis"),
  ("LCT", CityCenter.mk 43.1748 5.6095 "La Ciotat"),
  ("LBR", CityCenter.mk 43.8324 5.3658 "Luberon"),
  ("FRQ", CityCenter.mk 43.9600 5.7810 "Forcalquier"),
  ("MEN", CityCenter.mk 43.7764 7.5048 "Menton"),
  ("CON", CityCenter.mk 44.0900 (-1.3150) "Contis"),
  ("VLMO", CityCenter.mk 45.4553 6.4506 "Valmorel"),
  ("REUN", CityCenter.mk (-21.1151) 55.5364 "La Réunion"),
  ("LDN", CityCenter.mk 51.5074 (-0.1278) "London"),
  ("MAN", CityCenter.mk 53.4808 (-2.2426) "Manchester"),
  ("NCL", CityCenter.mk 54.9783 (-1.6178) "Newcastle"),
  ("BCN", CityCenter.mk 41.3851 2.1734 "Barcelona"),
  ("BRC", CityCenter.mk 41.3851 2.1734 "Barcelona"),
  ("ROM", CityCenter.mk 41.9028 12.4964 "Rome"),
  ("RAV", CityCenter.mk 44.4184 12.2035 "Ravenna"),
  ("RA", CityCenter.mk 44.4184 12.2035 "Ravenna"),
  ("FLRN", CityCenter.mk 43.7696 11.2558 "Florence"),
  ("MLN", CityCenter.mk 45.4642 9.1900 "Milan"),
  ("VRN", CityCenter.mk 25.2854 82.9990 "Varanasi"),
  ("MLGA", CityCenter.mk 36.7213 (-4.4214) "Malaga"),
  ("BBO", CityCenter.mk 43.2630 (-2.9350) "Bilbao"),
  ("AMS", CityCenter.mk 52.3676 4.9041 "Amsterdam"),
  ("RTD", CityCenter.mk 51.9225 4.4792 "Rotterdam"),
  ("NOO", CityCenter.mk 52.2361 4.4303 "Noordwijk"),
  ("BRL", CityCenter.mk 52.5200 13.4050 "Berlin"),
  ("MUN", CityCenter.mk 48.1351 11.5820 "Munich"),
  ("KLN", CityCenter.mk 50.9375 6.9603 "Cologne"),
  ("FKF", CityCenter.mk 50.1109 8.6821 "Frankfurt"),
  ("WN", CityCenter.mk 48.2082 16.3738 "Vienna"),
  ("BXL", CityCenter.mk 50.8503 4.3517 "Brussels"),
  ("CHAR", CityCenter.mk 50.4108 4.4446 "Charleroi"),
  ("ANVR", CityCenter.mk 51.2194 4.4025 "Antwerp"),
  ("BRN", CityCenter.mk 46.9480 7.4474 "Bern"),
  ("BSL", CityCenter.mk 47.5596 7.5886 "Basel"),
  ("GNV", CityCenter.mk 46.2044 6.1432 "Geneva"),
  ("LSN", CityCenter.mk 46.5197 6.6323 "Lausanne"),
  ("ANZR", CityCenter.mk 46.3100 7.3870 "Anzère"),
  ("LJU", CityCenter.mk 46.0569 14.5058 "Ljubljana"),
  ("PRT", CityCenter.mk (-31.9505) 115.8605 "Perth"),
  ("FAO", CityCenter.mk 37.0194 (-7.9322) "Faro"),
  ("IST", CityCenter.mk 41.0082 28.9784 "Istanbul"),
  ("RVK", CityCenter.mk 64.1466 (-21.9426) "Reykjavik"),
  ("HALM", CityCenter.mk 56.6745 12.8578 "Halmstad"),
  ("VSB", CityCenter.mk 57.6349 18.2948 "Visby"),
  ("GRU", CityCenter.mk 43.2615 17.0186 "Gruž"),
  ("MRAK", CityCenter.mk 31.6295 (-7.9811) "Marrakech"),
  ("RBA", CityCenter.mk 34.0209 (-6.8416) "Rabat"),
  ("DJBA", CityCenter.mk 33.8076 10.8451 "Djerba"),
  ("MBSA", CityCenter.mk (-4.0435) 39.6682 "Mombasa"),
  ("TK", CityCenter.mk 35.6762 139.6503 "Tokyo"),
  ("HK", CityCenter.mk 22.3193 114.1694 "Hong Kong"),
  ("BKK", CityCenter.mk 13.7563 100.5018 "Bangkok"),
  ("BGK", CityCenter.mk 13.7563 100.5018 "Bangkok"),
  ("KAT", CityCenter.mk 27.7172 85.3240 "Kathmandu"),
  ("DHK", CityCenter.mk 23.8103 90.4125 "Dhaka"),
  ("DJN", CityCenter.mk 36.3504 127.3845 "Daejeon"),
  ("SL", CityCenter.mk 37.5665 126.9780 "Seoul"),
  ("BT", CityCenter.mk 27.4712 89.6339 "Bhutan"),
  ("CCU", CityCenter.mk 21.1619 (-86.8515) "Cancún"),
  ("NY", CityCenter.mk 40.7128 (-74.0060) "New York"),
  ("LA", CityCenter.mk 34.0522 (-118.2437) "Los Angeles"),
  ("MIA", CityCenter.mk 25.7617 (-80.1918) "Miami"),
  ("SD", CityCenter.mk 32.7157 (-117.1611) "San Diego"),
  ("SP", CityCenter.mk (-23.5505) (-46.6333) "São Paulo"),
  ("POTI", CityCenter.mk (-19.5836) (-65.7531) "Potosí"),
  ("MLB", CityCenter.mk (-37.8136) 144.9631 "Melbourne"),
  ("BTA", CityCenter.mk 42.6973 9.4510 "Bastia"),
  ("ELT", CityCenter.mk 29.5577 34.9519 "Eilat"),
  ("GRTI", CityCenter.mk 29.0333 (-13.6333) "Graciosa"),
  ("RDU", CityCenter.mk 50.3543 5.4563 "Durbuy"),
  ("SPACE", CityCenter.mk 0.0 0.0 "Space (ISS)"),
  ("NCE", CityCenter.mk 43.7102 7.2620 "Nice"),
  ("FLR", CityCenter.mk 43.7696 11.2558 "Florence"),
  ("MIL", CityCenter.mk 45.4642 9.1900 "Milan"),
  ("SF", CityCenter.mk 37.7749 (-122.4194) "San Francisco"),
  ("SIN", CityCenter.mk 1.3521 103.8198 "Singapore"),
  ("MAD", CityCenter.mk 40.4168 (-3.7038) "Madrid"),
  ("PRG", CityCenter.mk 50.0755 14.4378 "Prague"),
  ("WAR", CityCenter.mk 52.2297 21.0122 "Warsaw"),
  ("SYD", CityCenter.mk (-33.8688) 151.2093 "Sydney"),
  ("BHM", CityCenter.mk 52.4862 (-1.8904) "Birmingham"),
  ("CF", CityCenter.mk 44.6357 (-1.2479) "Cap Ferret"),
  ("CFT", CityCenter.mk 44.6357 (-1.2479) "Cap Ferret"),
  ("CFRT", CityCenter.mk 44.6357 (-1.2479) "Cap Ferret"),
  ("CAP", CityCenter.mk 48.6815 (-2.3182) "Cap Fréhel"),
  ("ARN", CityCenter.mk 44.6608 (-1.1680) "Arcachon"),
  ("ARC", CityCenter.mk 44.6608 (-1.1680) "Arcachon"),
  ("RON", CityCenter.mk 45.6222 (-1.0284) "Royan"),
  ("ROY", CityCenter.mk 45.6222 (-1.0284) "Royan"),
  ("LROC", CityCenter.mk 46.1603 (-1.1511) "La Rochelle"),
  ("LRC", CityCenter.mk 46.1603 (-1.1511) "La Rochelle"),
  ("BRG", CityCenter.mk 51.2093 3.2247 "Bruges"),
  ("BRUG", CityCenter.mk 51.2093 3.2247 "Bruges"),
  ("LIS", CityCenter.mk 38.7223 (-9.1393) "Lisbonne"),
  ("LX", CityCenter.mk 38.7223 (-9.1393) "Lisbonne"),
  ("LSB", CityCenter.mk 38.7223 (-9.1393) "Lisbonne"),
  ("GEN", CityCenter.mk 44.4056 8.9463 "Gênes"),
  ("GNS", CityCenter.mk 44.4056 8.9463 "Gênes"),
  ("NPL", CityCenter.mk 40.8518 14.2681 "Naples"),
  ("NAP", CityCenter.mk 40.8518 14.2681 "Naples"),
  ("VEN", CityCenter.mk 45.4408 12.3155 "Venise"),
  ("VCE", CityCenter.mk 45.4408 12.3155 "Venise"),
  ("TUN", CityCenter.mk 36.8065 10.1815 "Tunis"),
  ("TN", CityCenter.mk 36.8065 10.1815 "Tunis"),
  ("LEGE", CityCenter.mk 44.6357 (-1.2479) "Lège-Cap-Ferret"),
  ("LGF", CityCenter.mk 44.6357 (-1.2479) "Lège-Cap-Ferret")]

/-- The `CITY_MAX_RADIUS` table (metres). -/
def CITY_MAX_RADIUS : List (String × ℚ) := [
  ("PA", 40000),
  ("LDN", 40000),
  ("NY", 50000),
  ("LA", 60000),
  ("TK", 50000),
  ("SP", 40000),
  ("BRL", 40000),
  ("ROM", 30000),
  ("BCN", 25000),
  ("BRC", 25000),
  ("MRS", 20000),
  ("LYO", 20000),
  ("BDX", 20000),
  ("TLS", 20000),
  ("LIL", 20000),
  ("AMS", 20000),
  ("BXL", 20000),
  ("MAN", 20000),
  ("MLB", 30000),
  ("MIA", 30000),
  ("SD", 30000),
  ("HK", 25000),
  ("FTBL", 10000),
  ("VRS", 10000),
  ("CAPF", 10000),
  ("MEN", 10000),
  ("CON", 10000),
  ("VLMO", 10000),
  ("CAZ", 10000),
  ("LCT", 10000),
  ("FRQ", 10000),
  ("ANZR", 10000),
  ("GRU", 10000),
  ("NOO", 10000),
  ("REUN", 50000),
  ("BT", 80000),
  ("GRTI", 20000)]

/-- `DEFAULT_CITY_RADIUS` (25 km). -/
def DEFAULT_CITY_RADIUS : ℚ := 25000

/-- Result dict of `validate_city_coherence`. The `warning` text is a
formatted message whose exact wording no claim depends on; only whether it
was set is retained. -/
structure CityValidation where
  valid : Bool
  distance_to_center : Option ℚ
  max_radius : Option ℚ
  city_name : Option String
  warning : Bool
deriving DecidableEq

/-- `validate_city_coherence(lat, lng, city_code)`. An empty `city_code`
models Python falsiness of `None` or `''` (`if not city_code`). Note that
the source compares the raw distance against the radius and only stores the
value rounded via `round(distance, 1)`. -/
def validate_city_coherence (dist : Dist) (lat lng : ℚ) (city_code : String) :
    CityValidation :=
  if city_code = "" then ⟨true, none, none, none, false⟩ else
  match CITY_CENTERS.lookup city_code with
  | none => ⟨true, none, none, none, false⟩
  | some city =>
    if city_code = "SPACE" then ⟨true, none, none, some city.name, false⟩
    else
      let max_radius := (CITY_MAX_RADIUS.lookup city_code).getD DEFAULT_CITY_RADIUS
      let distance := dist lat lng city.lat city.lng
      { valid := decide (¬ distance > max_radius),
        distance_to_center := some (round01 distance),
        max_radius := some max_radius,
        city_name := some city.name,
        warning := decide (distance > max_radius) }

/-- Variant of the validator written from the specification's words for the
rounding-policy claim: the radius comparison is performed on the distance
already rounded to 0.1 m. Used only to compare against
`validate_city_coherence` (which the source defines). -/
def validate_city_coherence_specRounded (dist : Dist) (lat lng : ℚ)
    (city_code : String) : CityValidation :=
  if city_code = "" then ⟨true, none, none, none, false⟩ else
  match CITY_CENTERS.lookup city_code with
  | none => ⟨true, none, none, none, false⟩
  | some city =>
    if city_code = "SPACE" then ⟨true, none, none, some city.name, false⟩
    else
      let max_radius := (CITY_MAX_RADIUS.lookup city_code).getD DEFAULT_CITY_RADIUS
      let distance := round01 (dist lat lng city.lat city.lng)
      { valid := decide (¬ distance > max_radius),
        distance_to_center := some distance,
        max_radius := some max_radius,
        city_name := some city.name,
        warning := decide (distance > max_radius) }

/-- A provider's result dict, reduced to the fields the pipeline reads:
`found`, `lat`, `lng`. When `found = false` the source dict carries no
coordinates (reading them would yield `None`); such a value is represented
with `lat = 0, lng = 0` which Python truthiness treats identically. -/
structure ProviderResult where
  found : Bool
  lat : ℚ
  lng : ℚ
deriving DecidableEq

/-- The `{'found': False}` dict. -/
def noResult : ProviderResult := ⟨false, 0, 0⟩

/-- Python truthiness test `r.get('found') and r.get('lat') and r.get('lng')`
from `check_coherence`: a coordinate equal to `0.0` (or absent) is falsy. -/
def provPresent (r : ProviderResult) : Bool :=
  r.found && !(decide (r.lat = 0)) && !(decide (r.lng = 0))

/-- Result dict of `check_coherence` (the `details` message text is not
retained; no claim depends on it). -/
structure Coherence where
  status : String
  distance_m : Option ℚ
deriving DecidableEq

/-- `InvaderLocationSearcher.check_coherence(aroundus_result, illuminate_result)`.
The bucket comparisons use the raw distance; only the stored `distance_m`
is rounded. -/
def check_coherence (dist : Dist) (au il : ProviderResult) : Coherence :=
  if provPresent au && provPresent il then
    let distance := dist au.lat au.lng il.lat il.lng
    { status :=
        if distance < 50 then "excellent"
        else if distance < 200 then "good"
        else if distance < 500 then "warning"
        else "conflict",
      distance_m := some (round01 distance) }
  else if provPresent au && !(provPresent il) then ⟨"single_source", none⟩
  else if provPresent il && !(provPresent au) then ⟨"single_source", none⟩
  else ⟨"not_found", none⟩

/-! ## The searcher pipeline (`InvaderLocationSearcher.search`) -/

/-- The searcher's configuration and the observed provider responses for one
`search` call. `aroundusEnabled` models `not self.no_browser and self.aroundus`,
`illuminateEnabled` models `not self.no_browser and self.illuminate`,
`pnoteEnabled` models `self.pnote and self.pnote.loaded` and `flickrEnabled`
models `not self.no_browser and self.flickr and self.flickr.enabled`. -/
structure SearchInput where
  aroundusEnabled : Bool
  illuminateEnabled : Bool
  pnoteEnabled : Bool
  flickrEnabled : Bool
  aroundus : ProviderResult
  illuminate : ProviderResult
  pnote : ProviderResult
  flickr : ProviderResult
deriving DecidableEq

/-- An entry of `results['rejected_sources']` (the formatted `reason` text is
not retained). -/
structure Rejected where
  source : String
  lat : ℚ
  lng : ℚ
  distance_to_center : Option ℚ
deriving DecidableEq

/-- The `results` dict assembled by `InvaderLocationSearcher.search`. -/
structure SearchResults where
  found : Bool
  lat : Option ℚ
  lng : Option ℚ
  source : Option String
  coherence : Coherence
  rejected_sources : List Rejected
  city_validation : Option CityValidation
deriving DecidableEq

/-- The nested `_check_city(lat, lng, source_name)` helper: `True` when no
city code is supplied, otherwise the region validator's verdict. -/
def checkCity (dist : Dist) (city_code : String) (lat lng : ℚ) : Bool :=
  if city_code = "" then true
  else (validate_city_coherence dist lat lng city_code).valid

/-- `aroundus_result` of `search`: the provider's result when the provider
ran, else the initial `{'found': False}`. -/
def aroundus_result (inp : SearchInput) : ProviderResult :=
  if inp.aroundusEnabled then inp.aroundus else noResult

/-- `illuminate_result` of `search`. -/
def illuminate_result (inp : SearchInput) : ProviderResult :=
  if inp.illuminateEnabled then inp.illuminate else noResult

/-- `aroundus_valid` of `search`: the provider ran, found a result, and the
result passed `_check_city`. -/
def aroundus_valid (dist : Dist) (inp : SearchInput) (city_code : String) :
    Bool :=
  inp.aroundusEnabled && (aroundus_result inp).found &&
    checkCity dist city_code (aroundus_result inp).lat (aroundus_result inp).lng

/-- `illuminate_valid` of `search`. -/
def illuminate_valid (dist : Dist) (inp : SearchInput) (city_code : String) :
    Bool :=
  inp.illuminateEnabled && (illuminate_result inp).found &&
    checkCity dist city_code (illuminate_result inp).lat
      (illuminate_result inp).lng

/-- Step 4 of `search`: the best result among the web sources (Catalog A is
preferred in every coherence outcome: excellent/good, conflict, and the
final `else`). -/
def best1 (dist : Dist) (inp : SearchInput) (city_code : String) :
    Option String :=
  if aroundus_valid dist inp city_code && illuminate_valid dist inp city_code
  then some "aroundus"
  else if aroundus_valid dist inp city_code then some "aroundus"
  else if illuminate_valid dist inp city_code then some "illuminate"
  else none

/-- Step 5 acceptance test of `search` (Pnote). -/
def pnote_ok (dist : Dist) (inp : SearchInput) (city_code : String) : Bool :=
  (best1 dist inp city_code).isNone && inp.pnoteEnabled && inp.pnote.found &&
    checkCity dist city_code inp.pnote.lat inp.pnote.lng

/-- `best_source` after step 5. -/
def best2 (dist : Dist) (inp : SearchInput) (city_code : String) :
    Option String :=
  if (best1 dist inp city_code).isSome then best1 dist inp city_code
  else if pnote_ok dist inp city_code then some "pnote" else none

/-- Step 6 acceptance test of `search` (Flickr). -/
def flickr_ok (dist : Dist) (inp : SearchInput) (city_code : String) : Bool :=
  (best2 dist inp city_code).isNone && inp.flickrEnabled &&
    inp.flickr.found &&
    checkCity dist city_code inp.flickr.lat inp.flickr.lng

/-- `best_source` after step 6. -/
def bestSource (dist : Dist) (inp : SearchInput) (city_code : String) :
    Option String :=
  if (best2 dist inp city_code).isSome then best2 dist inp city_code
  else if flickr_ok dist inp city_code then some "flickr" else none

/-- `InvaderLocationSearcher.search(invader_id, city_code)`, steps 1-8
(step 9, reverse geocoding of the address, and the printing of step 10 do
not affect the coordinate/source outcome and are omitted). -/
def search (dist : Dist) (inp : SearchInput) (city_code : String) :
    SearchResults :=
  let aroundus_result := aroundus_result inp
  let aroundus_valid := aroundus_valid dist inp city_code
  let illuminate_result := illuminate_result inp
  let illuminate_valid := illuminate_valid dist inp city_code
  let coherence := check_coherence dist
    (if aroundus_valid then aroundus_result else noResult)
    (if illuminate_valid then illuminate_result else noResult)
  let best1 := best1 dist inp city_code
  let pnote_ok := pnote_ok dist inp city_code
  let best2 := best2 dist inp city_code
  let flickr_ok := flickr_ok dist inp city_code
  let best := bestSource dist inp city_code
  -- pnote/flickr acceptance overwrites the coherence status
  let coherence := if pnote_ok || flickr_ok then
    { coherence with status := "single_source" } else coherence
  let rejected : List Rejected :=
    (if inp.aroundusEnabled && aroundus_result.found &&
        !(checkCity dist city_code aroundus_result.lat aroundus_result.lng) then
      [⟨"AroundUs", aroundus_result.lat, aroundus_result.lng,
        (validate_city_coherence dist aroundus_result.lat aroundus_result.lng
          city_code).distance_to_center⟩] else []) ++
    (if inp.illuminateEnabled && illuminate_result.found &&
        !(checkCity dist city_code illuminate_result.lat illuminate_result.lng) then
      [⟨"IlluminateArt", illuminate_result.lat, illuminate_result.lng,
        (validate_city_coherence dist illuminate_result.lat illuminate_result.lng
          city_code).distance_to_center⟩] else []) ++
    (if best1.isNone && inp.pnoteEnabled && inp.pnote.found &&
        !(checkCity dist city_code inp.pnote.lat inp.pnote.lng) then
      [⟨"Pnote", inp.pnote.lat, inp.pnote.lng,
        (validate_city_coherence dist inp.pnote.lat inp.pnote.lng
          city_code).distance_to_center⟩] else []) ++
    (if best2.isNone && inp.flickrEnabled && inp.flickr.found &&
        !(checkCity dist city_code inp.flickr.lat inp.flickr.lng) then
      [⟨"Flickr", inp.flickr.lat, inp.flickr.lng,
        (validate_city_coherence dist inp.flickr.lat inp.flickr.lng
          city_code).distance_to_center⟩] else [])
  -- step 7: fill the final result
  let base : SearchResults :=
    { found := false,
      lat := none,
      lng := none,
      source := none,
      coherence := coherence,
      rejected_sources := rejected,
      city_validation := none }
  let filled : SearchResults :=
    match best with
    | some "aroundus" =>
      { base with
          found := true,
          lat := some aroundus_result.lat,
          lng := some aroundus_result.lng,
          source := some "aroundus" }
    | some "illuminate" =>
      { base with
          found := true,
          lat := some illuminate_result.lat,
          lng := some illuminate_result.lng,
          source := some "illuminateartofficial" }
    | some "pnote" =>
      { base with
          found := true,
          lat := some inp.pnote.lat,
          lng := some inp.pnote.lng,
          source := some "pnote" }
    | some "flickr" =>
      { base with
          found := true,
          lat := some inp.flickr.lat,
          lng := some inp.flickr.lng,
          source := some "flickr" }
    | _ => base
  -- step 8: final city validation of the retained result
  if filled.found && !(city_code = "") then
    { filled with
        city_validation :=
          some (validate_city_coherence dist (filled.lat.getD 0)
            (filled.lng.getD 0) city_code) }
  else filled

/-! ## Per-invader processing (`process_missing_invaders` loop body) -/

/-- Inputs of one iteration of the `process_missing_invaders` loop:
the searcher outcome plus the observed outcomes of the fallback providers.
`ocrEnabled` models `searcher.ocr_analyzer and TESSERACT_AVAILABLE`;
`interactiveMode` is the `interactive` flag; `interactiveResult = none`
models a skipped / failed interactive session (the function returning
`None`). The `vision` result is the dict `searcher.vision.analyze(...)`
would return, with its `confidence` field. -/
structure ProcessInput where
  search : SearchResults
  image_lieu : Bool
  exif : ProviderResult
  ocrEnabled : Bool
  ocr : ProviderResult
  visionEnabled : Bool
  vision : ProviderResult
  visionConfidence : String
  interactiveMode : Bool
  interactiveResult : Option ProviderResult
deriving DecidableEq

/-- The `new_inv` record assembled for one invader (fields irrelevant to the
claims - `id`, `status`, `points`, copied image fields - omitted). A `none`
in `geo_search_exhausted` / `geo_search_date` models the key being absent
from the dict. -/
structure NewInv where
  lat : Option ℚ
  lng : Option ℚ
  geo_source : Option String
  geo_confidence : String
  location_unknown : Bool
  geo_search_exhausted : Option Bool
  geo_search_date : Option String
deriving DecidableEq

/-- The loop body of `process_missing_invaders` for one invader, from the
`search_result` test to the city-center fallback. `now` stands for
`datetime.now().isoformat()`. -/
def process_one (dist : Dist) (pin : ProcessInput) (city_code : String)
    (now : String) : NewInv :=
  let init : NewInv :=
    { lat := none,
      lng := none,
      geo_source := none,
      geo_confidence := "low",
      location_unknown := true,
      geo_search_exhausted := none,
      geo_search_date := none }
  if pin.search.found then
    let status := pin.search.coherence.status
    { init with
        lat := pin.search.lat,
        lng := pin.search.lng,
        geo_source := pin.search.source,
        location_unknown := false,
        geo_search_exhausted := some false,
        geo_confidence :=
          if status = "excellent" ∨ status = "good" then "high"
          else if status = "warning" ∨ status = "conflict" ∨
              status = "single_source" then "medium"
          else "medium" }
  else
    -- EXIF attempt (only with an image URL); accepted without any region
    -- validation
    if pin.image_lieu && pin.exif.found then
      { init with
          lat := some pin.exif.lat,
          lng := some pin.exif.lng,
          geo_source := some "exif_image_lieu",
          geo_confidence := "medium",
          location_unknown := false,
          geo_search_exhausted := some false }
    else
      -- OCR attempt (only when EXIF failed on an available image)
      if pin.image_lieu && pin.ocrEnabled && pin.ocr.found then
        { init with
            lat := some pin.ocr.lat,
            lng := some pin.ocr.lng,
            geo_source := some "ocr",
            geo_confidence := "medium",
            location_unknown := false,
            geo_search_exhausted := some false }
      else
        -- Claude Vision attempt, rejected by the region validator when a
        -- city code is supplied
        let vision_ok := pin.image_lieu && pin.visionEnabled &&
          pin.vision.found &&
          (city_code = "" ||
            (validate_city_coherence dist pin.vision.lat pin.vision.lng
              city_code).valid)
        if vision_ok then
          { init with
              lat := some pin.vision.lat,
              lng := some pin.vision.lng,
              geo_source := some "vision",
              geo_confidence :=
                if pin.visionConfidence = "HIGH" ∨
                    pin.visionConfidence = "MEDIUM" then "medium" else "low",
              location_unknown := false,
              geo_search_exhausted := some false }
        else
          -- interactive Google Lens / manual address fallback; accepted
          -- without any region validation
          match (if pin.interactiveMode then pin.interactiveResult else none) with
          | some r =>
            if r.found then
              { init with
                  lat := some r.lat,
                  lng := some r.lng,
                  geo_source := some "interactive",
                  geo_confidence := "medium",
                  location_unknown := false,
                  geo_search_exhausted := some false }
            else
              process_one_fallback city_code now init
          | none => process_one_fallback city_code now init
where
  /-- Fallback 3: city center (or the `(0, 0)` unknown-city placeholder). -/
  process_one_fallback (city_code : String) (now : String) (init : NewInv) :
      NewInv :=
    match CITY_CENTERS.lookup city_code with
    | some city =>
      { init with
          lat := some city.lat,
          lng := some city.lng,
          geo_source := some "city_center",
          geo_confidence := "low",
          geo_search_exhausted := some true,
          geo_search_date := some now }
    | none =>
      { init with
          lat := some 0,
          lng := some 0,
          geo_source := some "unknown",
          geo_search_exhausted := some true,
          geo_search_date := some now }

/-! ## String utilities

Lean's own `String.toUpper`, `String.toLower`, `String.trim`,
`String.splitOn` and `String.startsWith` are byte-position based and do not
reduce in the kernel, so the embedding uses character-list implementations.
They model the corresponding Python `str` operations on ASCII text; Python
additionally case-maps non-ASCII letters, which no concrete input below
contains. -/

/-- The 26 ASCII lowercase/uppercase letter pairs. -/
def asciiCasePairs : List (Char × Char) := [
  ('a', 'A'), ('b', 'B'), ('c', 'C'), ('d', 'D'), ('e', 'E'), ('f', 'F'),
  ('g', 'G'), ('h', 'H'), ('i', 'I'), ('j', 'J'), ('k', 'K'), ('l', 'L'),
  ('m', 'M'), ('n', 'N'), ('o', 'O'), ('p', 'P'), ('q', 'Q'), ('r', 'R'),
  ('s', 'S'), ('t', 'T'), ('u', 'U'), ('v', 'V'), ('w', 'W'), ('x', 'X'),
  ('y', 'Y'), ('z', 'Z')]

/-- ASCII `str.upper` on one character. -/
def upChar (c : Char) : Char := (asciiCasePairs.lookup c).getD c

/-- ASCII `str.lower` on one character. -/
def downChar (c : Char) : Char :=
  ((asciiCasePairs.map (fun p => (p.2, p.1))).lookup c).getD c

/-- ASCII `str.upper`. -/
def toUpperStr (s : String) : String := String.mk (s.toList.map upChar)

/-- ASCII `str.lower`. -/
def toLowerStr (s : String) : String := String.mk (s.toList.map downChar)

/-- Python whitespace class (ASCII part), used by `str.strip` / `str.split`
and the regex class `\s`. -/
def isWsCh (c : Char) : Bool :=
  c = ' ' || c = '\t' || c = '\n' || c = '\x0D' || c = '\x0B' || c = '\x0C'

/-- Python `str.strip()`. -/
def trimStr (s : String) : String :=
  String.mk (((s.toList.dropWhile isWsCh).reverse.dropWhile isWsCh).reverse)

/-- Python `str.split(sep)` for a single-character separator (keeps empty
parts, as Python does). -/
def splitChar (sep : Char) (s : String) : List String :=
  (go s.toList []).map String.mk
where
  go : List Char → List Char → List (List Char)
    | [], acc => [acc.reverse]
    | c :: rest, acc =>
      if c = sep then acc.reverse :: go rest [] else go rest (c :: acc)

/-! ## Geocoding result selection (`ImageOCRAnalyzer`) -/

/-- A Nominatim result row, reduced to the fields the selection logic reads
(`display_name`, `type` and `importance` are stored in the candidate dict but
never used to choose it). -/
structure NomResult where
  lat : ℚ
  lng : ℚ
deriving DecidableEq

/-- The zero-sentinel test `abs(lat) < 0.01 and abs(lng) < 0.01`. -/
def nearZero (lat lng : ℚ) : Bool :=
  decide (|lat| < 0.01) && decide (|lng| < 0.01)

/-- Loop of `_pick_best_nominatim_result`, carrying `best` and
`best_distance` (Python `float('inf')` is the `⊤` of `WithTop ℚ`; note that
`check['distance_to_center'] or float('inf')` also maps a distance of
exactly `0.0` to infinity, because `0.0` is falsy). -/
def pickLoop (dist : Dist) (city_code : String) :
    List NomResult → Option NomResult → WithTop ℚ → Option NomResult
  | [], best, _ => best
  | r :: rest, best, best_distance =>
    if nearZero r.lat r.lng then pickLoop dist city_code rest best best_distance
    else if !(city_code = "") && (CITY_CENTERS.lookup city_code).isSome then
      let check := validate_city_coherence dist r.lat r.lng city_code
      if check.valid then
        let d : WithTop ℚ :=
          match check.distance_to_center with
          | some q => if q = 0 then ⊤ else (q : WithTop ℚ)
          | none => ⊤
        if d < best_distance then pickLoop dist city_code rest (some r) d
        else pickLoop dist city_code rest best best_distance
      else pickLoop dist city_code rest best best_distance
    else
      if best.isNone then pickLoop dist city_code rest (some r) best_distance
      else pickLoop dist city_code rest best best_distance

/-- `ImageOCRAnalyzer._pick_best_nominatim_result(results, city_code)`. -/
def pick_best_nominatim_result (dist : Dist) (results : List NomResult)
    (city_code : String) : Option NomResult :=
  pickLoop dist city_code results none ⊤

/-- Outcome of `geocode_address`, extended with the free-form query string
the function would send so that the query-building rule is checkable. -/
structure GeocodeOutcome where
  result : Option NomResult
  used_freeform : Bool
  freeform_query : String
deriving DecidableEq

/-- Case-insensitive substring test `needle.lower() in hay.lower()`. -/
def isSubstrLower (needle hay : String) : Bool :=
  let n := (toLowerStr needle).toList
  let h := (toLowerStr hay).toList
  (List.range (h.length + 1)).any (fun i => n.isPrefixOf (h.drop i))

/-- `ImageOCRAnalyzer.geocode_address(address, city_code)`. The two network
responses are passed in: `none` models an exception or a non-200 status,
`some rs` a 200 response with JSON body `rs`. The structured query is only
issued when a city name is known; the free-form query appends the city name
unless it already occurs (case-insensitively) in the address. -/
def geocode_address (dist : Dist)
    (structuredResp freeformResp : Option (List NomResult))
    (address city_code : String) : GeocodeOutcome :=
  let city_name : Option String :=
    if city_code = "" then none
    else (CITY_CENTERS.lookup city_code).map (fun c => c.name)
  let structuredPick : Option NomResult :=
    match city_name, structuredResp with
    | some _, some rs => pick_best_nominatim_result dist rs city_code
    | _, _ => none
  let query :=
    match city_name with
    | some n => if isSubstrLower n address then address else address ++ ", " ++ n
    | none => address
  match structuredPick with
  | some g => ⟨some g, false, query⟩
  | none =>
    let freePick : Option NomResult :=
      match freeformResp with
      | some rs => pick_best_nominatim_result dist rs city_code
      | none => none
    ⟨freePick, true, query⟩

/-! ## Individual provider coordinate filters -/

/-- Acceptance test of `interactive_google_lens` / `interactive_manual_address`
on the Nominatim response (`limit=1`): the first result is taken and rejected
when within 0.01 degrees of `(0, 0)`. -/
def interactive_geocode_accept (results : List NomResult) : Option NomResult :=
  match results with
  | [] => none
  | r :: _ => if nearZero r.lat r.lng then none else some r

/-- Coordinate validation inside `extract_gps_from_image_url` (EXIF): a
near-zero coordinate, then an out-of-range coordinate, is an error. -/
def exif_coord_accepted (lat lng : ℚ) : Bool :=
  if nearZero lat lng then false
  else decide (-90 ≤ lat ∧ lat ≤ 90 ∧ -180 ≤ lng ∧ lng ≤ 180)

/-- Coordinate validation of the AroundUs JSON-LD / HTML extraction:
in range and not the zero sentinel. -/
def aroundus_coord_accepted (lat lng : ℚ) : Bool :=
  decide (-90 ≤ lat ∧ lat ≤ 90 ∧ -180 ≤ lng ∧ lng ≤ 180) &&
    !(nearZero lat lng)

/-- Coordinate validation of the IlluminateArt direct `@lat,lng` extraction
(`_extract_data_from_page`): only the range is checked - there is no
zero-sentinel test on this path. -/
def illuminate_direct_accepted (lat lng : ℚ) : Bool :=
  decide (-90 ≤ lat ∧ lat ≤ 90 ∧ -180 ≤ lng ∧ lng ≤ 180)

/-- Coordinate validation of the Pnote loader: near-zero, then out-of-range,
coordinates are nulled out. -/
def pnote_coord_accepted (lat lng : ℚ) : Bool :=
  if nearZero lat lng then false
  else decide (-90 ≤ lat ∧ lat ≤ 90 ∧ -180 ≤ lng ∧ lng ≤ 180)

/-- Coordinate validation of every Flickr page-extraction strategy:
`Math.abs(lat) > 0.01 || Math.abs(lng) > 0.01`. -/
def flickr_coord_accepted (lat lng : ℚ) : Bool :=
  decide (|lat| > 0.01) || decide (|lng| > 0.01)

/-! ## Address recombination engine (`ImageOCRAnalyzer._recombine_*`)

The OCR text handling is ASCII-faithful: Python's `str.upper`, `\w`, `\s`
and `\b` additionally handle non-ASCII letters, which none of the concrete
inputs below contain. -/

/-- ASCII uppercase letter. -/
def isUpperAZ (c : Char) : Bool := decide ('A' ≤ c) && decide (c ≤ 'Z')

/-- ASCII digit. -/
def isDigitCh (c : Char) : Bool := decide ('0' ≤ c) && decide (c ≤ '9')

/-- Python regex class `\w` (ASCII part). -/
def isWordCh (c : Char) : Bool :=
  isUpperAZ c || (decide ('a' ≤ c) && decide (c ≤ 'z')) || isDigitCh c || c = '_'

/-- Splits into the maximal runs of characters on which `sep` is false. -/
def splitByAux (sep : Char → Bool) : List Char → List Char → List (List Char)
  | [], acc => if acc.isEmpty then [] else [acc.reverse]
  | c :: rest, acc =>
    if sep c then
      if acc.isEmpty then splitByAux sep rest []
      else acc.reverse :: splitByAux sep rest []
    else splitByAux sep rest (c :: acc)

/-- Python `str.split()` (split on whitespace runs, no empty parts). -/
def splitWs (s : String) : List String :=
  (splitByAux isWsCh s.toList []).map String.mk

/-- The word tokens of a line: the matches of `\b...\b`-delimited words,
i.e. the maximal runs of `\w` characters. -/
def wordTokens (s : String) : List String :=
  (splitByAux (fun c => !(isWordCh c)) s.toList []).map String.mk

/-- Python `str.strip('.,;:!?')`. -/
def stripPunct (s : String) : String :=
  let punct := fun (c : Char) =>
    c = '.' || c = ',' || c = ';' || c = ':' || c = '!' || c = '?'
  String.mk (((s.toList.dropWhile punct).reverse.dropWhile punct).reverse)

/-- Does the text contain three consecutive equal characters
(regex `(.)\1{2,}`)? -/
def hasTripleRepeat : List Char → Bool
  | a :: b :: c :: rest => (a = b && b = c) || hasTripleRepeat (b :: c :: rest)
  | _ => false

/-- Does the text contain a run of at least `n` characters satisfying `p`?
`k` is the length of the current run. -/
def hasRunGe (p : Char → Bool) (n : Nat) : List Char → Nat → Bool
  | [], _ => false
  | c :: rest, k =>
    if p c then (if n ≤ k + 1 then true else hasRunGe p n rest (k + 1))
    else hasRunGe p n rest 0

/-- An uppercase letter immediately followed by a digit
(regex `[A-Z]{1,2}\d` on an arbitrary position). -/
def hasUpperDigitPair : List Char → Bool
  | a :: b :: rest => (isUpperAZ a && isDigitCh b) || hasUpperDigitPair (b :: rest)
  | _ => false

/-- Substring test on character lists. -/
def isSubstrCh (needle : List Char) : List Char → Bool
  | [] => needle.isEmpty
  | c :: rest => needle.isPrefixOf (c :: rest) || isSubstrCh needle rest

/-- The consonant class `[BCDFGHJKLMNPQRSTVWXZ]` of both scoring functions. -/
def consonantsRun : List Char := "BCDFGHJKLMNPQRSTVWXZ".toList

/-- The vowel list of `_score_french_address`. -/
def frVowels : List Char := "AEIOUYÀÂÉÈÊËÏÎÔÙÛÜ".toList

/-- The `KNOWN_FR_NAMES` gazetteer of `_recombine_french` (set contents). -/
def KNOWN_FR_NAMES : List String := [
  "RIVOLI", "VOLTAIRE", "REPUBLIQUE", "RÉPUBLIQUE", "BELLEVILLE", "ROQUETTE",
  "OBERKAMPF", "MÉNILMONTANT", "MENILMONTANT", "CHARONNE", "BASTILLE", "TEMPLE",
  "TURBIGO", "RÉAUMUR", "REAUMUR", "SÉBASTOPOL", "SEBASTOPOL", "MAGENTA",
  "STRASBOURG", "HAUSSMANN", "OPÉRA", "OPERA", "MADELEINE", "CONCORDE",
  "CHAMPS", "ÉLYSÉES", "ELYSEES", "MONTMARTRE", "PIGALLE", "CLICHY",
  "BATIGNOLLES", "SAINT", "SAINTE", "FAUBOURG", "VAUGIRARD", "GRENELLE",
  "LECOURBE", "CONVENTION", "DAGUERRE", "ALÉSIA", "ALESIA", "TOLBIAC",
  "GLACIÈRE", "GLACIERE", "MOUFFETARD", "MONGE", "JUSSIEU", "CARDINAL",
  "LEMOINE", "POPINCOURT", "FOLIE", "MÉRICOURT", "MERICOURT", "BUTTES",
  "CHAUMONT", "JOURDAIN", "PYRÉNÉES", "PYRENEES", "GAMBETTA", "PÈRE",
  "PERE", "LACHAISE", "MARAIS", "FRANCS", "BOURGEOIS", "ARCHIVES",
  "BRETAGNE", "TURENNE", "BEAUMARCHAIS", "RICHARD", "LENOIR", "PARMENTIER",
  "JEAN", "PIERRE", "TIMBAUD", "VICTOR", "HUGO", "JAURÈS",
  "JAURES", "LÉON", "LEON", "DANTON", "MOLIÈRE", "MOLIERE",
  "PASTEUR", "RASPAIL", "DENFERT", "ROCHEREAU", "OXFORD", "BAKER",
  "REGENT", "BOND", "FLEET", "STRAND", "BRICK", "CARNABY",
  "SOHO", "COVENT", "PICCADILLY", "PORTOBELLO", "CAMDEN", "BRIXTON",
  "SHOREDITCH"]

/-- `ImageOCRAnalyzer._score_french_address(address, name_part, known_names)`
(the `address` argument is received but never read by the source). -/
def score_french_address (address name_part : String)
    (known_names : List String) : Int :=
  let _ := address
  let words := splitWs name_part
  let chars := name_part.toList
  let s1 : Int :=
    if words.any (fun w => known_names.contains (stripPunct w)) then 50 else 0
  let s2 : Int := if 3 ≤ chars.length ∧ chars.length ≤ 40 then 20 else 0
  let s3 : Int := if 2 ≤ words.length then 10 else 0
  let vowels := (chars.filter (fun c => frVowels.contains c)).length
  let s4 : Int := if 1 ≤ vowels then 15 else 0
  let m1 : Int := if hasTripleRepeat chars then -30 else 0
  let m2 : Int :=
    if ((chars.filter (fun c => !(c = ' '))).eraseDups).length < 4 then -30 else 0
  let m3 : Int :=
    if hasRunGe (fun c => consonantsRun.contains c) 4 chars 0 then -20 else 0
  s1 + s2 + s3 + s4 + m1 + m2 + m3

/-- The `common_uk_names` set of `_recombine_uk`. -/
def common_uk_names : List String := [
  "SPRING", "OXFORD", "BAKER", "ABBEY", "KINGS", "QUEENS",
  "VICTORIA", "REGENT", "BOND", "FLEET", "STRAND", "SOHO",
  "BRICK", "DEAN", "GREEK", "POLAND", "CARNABY", "COVENT",
  "TRAFALGAR", "LEICESTER", "PICCADILLY", "CHELSEA", "DANSEY",
  "ARBLAY", "D\x27ARBLAY", "ILFORD", "WARDOUR", "BERWICK", "FRITH",
  "WHITEHALL", "DOWNING", "PORTOBELLO", "CAMDEN", "BRIXTON"]

/-- `ImageOCRAnalyzer._score_address(name, fragment, common_names,
postcode_pattern)` - the `postcode_pattern` argument is received but never
read by the source (the postcode bonus uses the inline regex
`[A-Z]{1,2}\d`). -/
def score_address (name fragment : String) (common : List String) : Int :=
  let nchars := name.toList
  let s1 : Int := if common.contains name then 50 else 0
  let vowels := (nchars.filter (fun c => ("AEIOU".toList).contains c)).length
  let s2 : Int :=
    if 1 ≤ vowels ∧ (vowels : Int) ≤ (nchars.length : Int) - 2 then 20 else 0
  let s3 : Int := if hasUpperDigitPair fragment.toList then 30 else 0
  let m1 : Int :=
    if isSubstrCh ("II".toList) nchars || decide (nchars.eraseDups.length < 4)
    then -30 else 0
  let m2 : Int :=
    if hasRunGe (fun c => consonantsRun.contains c) 4 nchars 0 then -20 else 0
  s1 + s2 + s3 + m1 + m2

/-! ### The candidate filter stage of `_recombine_fragments` (lines sorting,
threshold, case-insensitive dedup, top 5) -/

/-- Python's stable `list.sort`: insertion sort where `x` is placed before
the first already-placed element that does not strictly precede it. -/
def insertBy (gt : α → α → Bool) (x : α) : List α → List α
  | [] => [x]
  | y :: ys => if gt y x then y :: insertBy gt x ys else x :: y :: ys

/-- Stable sort by the strict precedence `gt`. -/
def sortBy (gt : α → α → Bool) : List α → List α
  | [] => []
  | x :: xs => insertBy gt x (sortBy gt xs)

/-- `candidates.sort(key=lambda x: -x[0])`: strict precedence is a strictly
greater score. -/
def scoreGt (a b : Int × String) : Bool := decide (b.1 < a.1)

/-- The dedup loop of `_recombine_fragments`: walk the sorted candidates
keeping `(score, address)` when the uppercased address is unseen and the
score is at least 40 (the key is only marked seen when the candidate is
kept, as in the source). -/
def dedupKeep (seen : List String) : List (Int × String) → List (Int × String)
  | [] => []
  | (s, a) :: rest =>
    if !(seen.contains (toUpperStr a)) && decide (40 ≤ s) then
      (s, a) :: dedupKeep (toUpperStr a :: seen) rest
    else dedupKeep seen rest

/-- The scored candidate list retained by `_recombine_fragments`
(`unique[:5]`). -/
def recombineFilterScored (cands : List (Int × String)) : List (Int × String) :=
  (dedupKeep [] (sortBy scoreGt cands)).take 5

/-- The address list returned by `_recombine_fragments`
(`[addr for score, addr in unique[:5]]`). -/
def recombineFilter (cands : List (Int × String)) : List String :=
  (recombineFilterScored cands).map Prod.snd

/-- The `CITY_COUNTRIES` table. -/
def CITY_COUNTRIES : List (String × String) := [
  ("LDN", "uk"), ("MAN", "uk"), ("BRM", "uk"), ("LPL", "uk"), ("EDI", "uk"),
  ("GLA", "uk"),
  ("PA", "fr"), ("LYO", "fr"), ("MRS", "fr"), ("BDX", "fr"), ("NTE", "fr"),
  ("STR", "fr"), ("TLS", "fr"), ("NCE", "fr"), ("REN", "fr"), ("VRS", "fr"),
  ("ORLN", "fr"), ("MLH", "fr"),
  ("NY", "us"), ("LA", "us"), ("SF", "us"), ("MIA", "us"), ("CHI", "us"),
  ("SD", "us"),
  ("TYO", "jp"), ("HK", "cn"), ("BKK", "th"), ("ROM", "it"), ("AMS", "nl"),
  ("BCN", "es"), ("MAD", "es"), ("BER", "de"), ("VIE", "de"), ("BRU", "fr")]

/-- `ImageOCRAnalyzer._recombine_fragments(text, city_code)`, with the
outputs of the two locale sub-recombiners abstracted as arguments (the
source computes `frCands = _recombine_french(lines, all_words, city_code)`
and `ukCands = _recombine_uk(lines, all_words)`; `recombine_uk` below is
the embedding of the latter). The country choice, the candidate
concatenation order and the filter stage follow the source. -/
def recombine_fragments (city_code : String)
    (frCands ukCands : List (Int × String)) : List String :=
  let country := (CITY_COUNTRIES.lookup city_code).getD "fr"
  let isFrench := country = "fr" || country = "it" || country = "es" ||
    country = "nl" || country = "de"
  let isUkUs := country = "uk" || country = "us"
  let candidates :=
    (if isFrench then frCands else []) ++
    (if isUkUs then ukCands else []) ++
    (if !(isFrench || isUkUs) then frCands ++ ukCands else [])
  recombineFilter candidates

/-! ### `_recombine_uk` -/

/-- Contents of `UK_STREET_TYPES_SET` (a Python set of strings: its
membership is order-free but its iteration order depends on the
interpreter's string hashing, which is seed-randomized across processes;
functions below therefore take the iteration order as a parameter). -/
def UK_STREET_TYPES_SET : List String := [
  "STREET", "ST", "ROAD", "RD", "LANE", "LN", "AVENUE", "AVE",
  "PLACE", "PL", "GARDENS", "GDNS", "SQUARE", "SQ", "TERRACE", "TER",
  "COURT", "CT", "MEWS", "ROW", "WAY", "CLOSE", "DRIVE", "DR",
  "CRESCENT", "CRES", "GROVE", "HILL", "WALK", "YARD", "PASSAGE",
  "ALLEY", "GATE", "GREEN", "PARK", "BRIDGE", "WHARF", "QUAY"]

/-- Contents of `UK_BUILDING_TYPES_SET`. -/
def UK_BUILDING_TYPES_SET : List String := [
  "HOUSE", "BUILDING", "TOWER", "HALL", "CENTRE", "CENTER",
  "THEATRE", "THEATER", "OPERA", "MUSEUM", "GALLERY", "HOTEL",
  "STATION", "CHURCH", "CATHEDRAL", "PALACE", "CASTLE", "ABBEY",
  "MARKET", "EXCHANGE", "BANK", "LIBRARY", "COLLEGE", "SCHOOL",
  "HOSPITAL", "OFFICE", "ARCADE", "CHAMBERS", "LODGE", "MANOR",
  "VILLA", "MANSION", "ARMS", "INN", "PUB", "BAR", "SHOP", "STORE",
  "STUDIOS"]

/-- The lines of `_recombine_fragments`:
`[l.strip() for l in text.upper().split('\n') if l.strip()]`. -/
def mkLines (text : String) : List String :=
  ((splitChar '\n' (toUpperStr text)).map trimStr).filter (fun l => !(l = ""))

/-- `all_words`: the whitespace-split words of every line, keeping those
longer than one character. -/
def allWordsOf (lines : List String) : List String :=
  lines.flatMap (fun l => (splitWs l).filter (fun w => 1 < w.length))

/-- Numeric value of a digit token. -/
def digitTokVal (cs : List Char) : Nat :=
  cs.foldl (fun acc c => acc * 10 + (c.toNat - '0'.toNat)) 0

/-- The matches of `\b(\d{1,3})\b` kept by `1 <= int(n) <= 999`, over all
lines: the all-digit word tokens of length 1-3 with nonzero value. -/
def numberTokens (lines : List String) : List String :=
  lines.flatMap (fun l => (wordTokens l).filter (fun t =>
    t.toList.all isDigitCh && decide (1 ≤ t.length) && decide (t.length ≤ 3) &&
      decide (1 ≤ digitTokVal t.toList)))

/-- `sorted(number_counts.keys(), key=lambda x: (-number_counts[x], -int(x)))`:
the distinct number tokens in first-occurrence order, stably sorted by
descending count then descending value. -/
def sortedNumbers (lines : List String) : List String :=
  let ns := numberTokens lines
  sortBy (fun a b =>
      decide (ns.count b < ns.count a) ||
        (decide (ns.count a = ns.count b) &&
          decide (digitTokVal b.toList < digitTokVal a.toList)))
    ns.eraseDups

/-- `\d{1,2}` with the following context: consumes one digit, or greedily
two. Returns the consumed length and the remainder. -/
def takeDigits12 : List Char → Option (Nat × List Char)
  | [] => none
  | d :: rest =>
    if isDigitCh d then
      match rest with
      | e :: rest2 => if isDigitCh e then some (2, rest2) else some (1, rest)
      | [] => some (1, [])
    else none

/-- Length consumed by the trailing `[A-Z]?`. -/
def optUpperLen : List Char → Nat
  | [] => 0
  | c :: _ => if isUpperAZ c then 1 else 0

/-- Matcher for the continuation `\s*[A-Z]{1,2}\d{1,2}[A-Z]?` of the capture
regex, with the regex engine's greedy/backtracking order: all whitespace,
two letters if a digit can follow them, else one letter. Returns the number
of characters consumed. -/
def matchPostcodeTail (cs : List Char) : Option Nat :=
  let ws := cs.takeWhile isWsCh
  let rest := cs.drop ws.length
  match rest with
  | [] => none
  | a :: rest1 =>
    if isUpperAZ a then
      let two : Option Nat :=
        match rest1 with
        | [] => none
        | b :: rest2 =>
          if isUpperAZ b then
            (takeDigits12 rest2).map (fun p => ws.length + 2 + p.1 + optUpperLen p.2)
          else none
      match two with
      | some n => some n
      | none =>
        (takeDigits12 rest1).map (fun p => ws.length + 1 + p.1 + optUpperLen p.2)
    else none

/-- Leftmost match of `({st}\s*[A-Z]{1,2}\d{1,2}[A-Z]?)` in the line
(scanning every start position, as `re.search` does). -/
def findCaptureAux (st : List Char) : List Char → Option (List Char)
  | [] => none
  | c :: rest =>
    if st.isPrefixOf (c :: rest) then
      match matchPostcodeTail ((c :: rest).drop st.length) with
      | some n => some ((c :: rest).take (st.length + n))
      | none => findCaptureAux st rest
    else findCaptureAux st rest

/-- The fragment stored for a street type found in a line:
`m.group(1) if m else st`. -/
def streetFragment (st line : String) : String :=
  match findCaptureAux st.toList line.toList with
  | some cap => String.mk cap
  | none => st

/-- `street_fragments`: for each line, for each street type of the set (in
iteration order `stOrd`), if the type occurs as a `\b`-delimited word, the
pair `(type, fragment)`. -/
def street_fragments (lines stOrd : List String) : List (String × String) :=
  lines.flatMap (fun line => stOrd.filterMap (fun st =>
    if (wordTokens line).contains st then some (st, streetFragment st line)
    else none))

/-- `building_fragments`: as above, the fragment being the type itself. -/
def building_fragments (lines btOrd : List String) : List (String × String) :=
  lines.flatMap (fun line => btOrd.filterMap (fun bt =>
    if (wordTokens line).contains bt then some (bt, bt) else none))

/-- `re.sub(r'[^A-Z]', '', word)`. -/
def keepUpper (s : String) : String := String.mk (s.toList.filter isUpperAZ)

/-- `potential_names`: cleaned words of length at least 4 (all-alphabetic by
construction) that are neither street nor building types. -/
def potential_names (allWords : List String) : List String :=
  allWords.filterMap (fun w =>
    let clean := keepUpper w
    if decide (4 ≤ clean.length) && !(UK_STREET_TYPES_SET.contains clean) &&
        !(UK_BUILDING_TYPES_SET.contains clean) then some clean else none)

/-- `ImageOCRAnalyzer._recombine_uk(lines, all_words)` (`all_words` is always
the value `allWordsOf lines` computed by the caller). `stOrd` and `btOrd` are
the iteration orders of `UK_STREET_TYPES_SET` / `UK_BUILDING_TYPES_SET` in
this interpreter run. -/
def recombine_uk (lines stOrd btOrd : List String) : List (Int × String) :=
  let all_words := allWordsOf lines
  let sfrags := street_fragments lines stOrd
  let bfrags := building_fragments lines btOrd
  let ns := numberTokens lines
  let snums := sortedNumbers lines
  (potential_names all_words).flatMap (fun name =>
    (sfrags.filterMap (fun f =>
      if !(name.toList.isPrefixOf f.2.toList) then
        let score := score_address name f.2 common_uk_names
        if 0 < score then some (score, name ++ " " ++ f.2) else none
      else none)) ++
    (bfrags.flatMap (fun f =>
      let score := score_address name f.2 common_uk_names +
        (if common_uk_names.contains name then 20 else 0)
      if 0 < score then
        (snums.map (fun num =>
          (score + 25 + 5 * (ns.count num : Int),
            num ++ " " ++ name ++ " " ++ f.2))) ++
          [(score, name ++ " " ++ f.2)]
      else [])))

/-! ## Helper lemmas -/

/-- Evaluation of the table lookup for Paris. -/
theorem lookup_PA :
    CITY_CENTERS.lookup "PA" = some (CityCenter.mk 48.8566 2.3522 "Paris") := by
  simp [CITY_CENTERS, List.lookup]

/-- Evaluation of the radius lookup for Paris. -/
theorem radius_PA : CITY_MAX_RADIUS.lookup "PA" = some 40000 := by
  simp [CITY_MAX_RADIUS, List.lookup]

/-- `round(x, 1)` of an integer is that integer. -/
theorem round01_intCast (n : ℤ) : round01 (n : ℚ) = n := by
  have h : ((n : ℚ) * 10) = ((n * 10 : ℤ) : ℚ) := by push_cast; ring
  rw [round01, h, round_intCast]
  push_cast
  field_simp

/-- Closed form of the validator on a known, non-sentinel region. -/
theorem validate_eval (d r : ℚ) {dist : Dist} {lat lng : ℚ} {c : String}
    {city : CityCenter}
    (hne : ¬ c = "") (hns : ¬ c = "SPACE")
    (hl : CITY_CENTERS.lookup c = some city)
    (hr : (CITY_MAX_RADIUS.lookup c).getD DEFAULT_CITY_RADIUS = r)
    (hd : dist lat lng city.lat city.lng = d) :
    validate_city_coherence dist lat lng c =
      ⟨decide (d ≤ r), some (round01 d), some r, some city.name,
        decide (r < d)⟩ := by
  simp [validate_city_coherence, hne, hns, hl, hr, hd]

/-- The zero sentinel does not fire when the latitude is not near zero. -/
theorem nearZero_false_left {lat lng : ℚ} (h : ¬ |lat| < 0.01) :
    nearZero lat lng = false := by
  simp [nearZero, h]

/-- The validator is a no-op for an absent or unknown region code. -/
theorem validate_not_tracked {dist : Dist} {lat lng : ℚ} {city : String}
    (h : city = "" ∨ CITY_CENTERS.lookup city = none) :
    validate_city_coherence dist lat lng city = ⟨true, none, none, none, false⟩ := by
  rcases h with h | h
  · subst h; rfl
  · by_cases hc : city = ""
    · subst hc; rfl
    · simp [validate_city_coherence, hc, h]

/-- A coordinate passing `_check_city` passes the validator (when no city is
supplied the validator trivially accepts). -/
theorem checkCity_valid {dist : Dist} {city : String} {lat lng : ℚ}
    (h : checkCity dist city lat lng = true) :
    (validate_city_coherence dist lat lng city).valid = true := by
  by_cases hc : city = ""
  · subst hc; rfl
  · simpa [checkCity, hc] using h

/-- Invariant of the `_pick_best_nominatim_result` loop: with a known city,
only candidates the region validator accepted are ever stored in `best`, so
the returned result is region-validated (trivially so when no city code is
supplied, since the validator then accepts everything). -/
theorem pickLoop_valid (dist : Dist) (city : String) :
    ∀ (rs : List NomResult) (best : Option NomResult) (bd : WithTop ℚ),
      (∀ b : NomResult, best = some b →
        (validate_city_coherence dist b.lat b.lng city).valid = true) →
      ∀ r : NomResult, pickLoop dist city rs best bd = some r →
        (validate_city_coherence dist r.lat r.lng city).valid = true := by
  intro rs
  induction rs with
  | nil =>
    intro best bd hinv r hr
    simp only [pickLoop] at hr
    exact hinv r hr
  | cons p rest ih =>
    intro best bd hinv r hr
    simp only [pickLoop] at hr
    split at hr
    · exact ih best bd hinv r hr
    · split at hr
      · -- known city
        split at hr
        · next hv =>
          split at hr
          · exact ih (some p) _
              (fun b hb => by injection hb with h; rw [← h]; exact hv) r hr
          · exact ih best bd hinv r hr
        · exact ih best bd hinv r hr
      · -- unknown or absent city: the validator accepts everything
        next hk =>
        have hall : (validate_city_coherence dist p.lat p.lng city).valid
            = true := by
          have hk2 : city = "" ∨ CITY_CENTERS.lookup city = none := by
            rcases Bool.and_eq_false_iff.mp (Bool.eq_false_iff.mpr hk) with h | h
            · left
              simpa using h
            · right
              cases hl : CITY_CENTERS.lookup city with
              | none => rfl
              | some v => rw [hl] at h; simp at h
          rw [validate_not_tracked hk2]
        split at hr
        · exact ih (some p) bd
            (fun b hb => by injection hb with h; rw [← h]; exact hall) r hr
        · exact ih best bd hinv r hr

/-- Invariant of the `_pick_best_nominatim_result` loop: a candidate within
0.01 degrees of `(0, 0)` is skipped before either branch may store it, so the
returned result is never the zero sentinel. -/
theorem pickLoop_nonzero (dist : Dist) (city : String) :
    ∀ (rs : List NomResult) (best : Option NomResult) (bd : WithTop ℚ),
      (∀ b : NomResult, best = some b → nearZero b.lat b.lng = false) →
      ∀ r : NomResult, pickLoop dist city rs best bd = some r →
        nearZero r.lat r.lng = false := by
  intro rs
  induction rs with
  | nil =>
    intro best bd hinv r hr
    simp only [pickLoop] at hr
    exact hinv r hr
  | cons p rest ih =>
    intro best bd hinv r hr
    simp only [pickLoop] at hr
    split at hr
    · exact ih best bd hinv r hr
    · next hz =>
      have hz2 : nearZero p.lat p.lng = false := by
        simpa using hz
      split at hr
      · split at hr
        · split at hr
          · exact ih (some p) _
              (fun b hb => by injection hb with h; rw [← h]; exact hz2) r hr
          · exact ih best bd hinv r hr
        · exact ih best bd hinv r hr
      · split at hr
        · exact ih (some p) bd
            (fun b hb => by injection hb with h; rw [← h]; exact hz2) r hr
        · exact ih best bd hinv r hr

/-- The coordinate `(0.005, 0.005)` is within 0.01 degrees of `(0, 0)`. -/
theorem nearZero_small : nearZero 0.005 0.005 = true := by
  have habs : |(0.005 : ℚ)| = 0.005 := abs_of_pos (by norm_num)
  simp only [nearZero, habs, Bool.and_eq_true, decide_eq_true_eq]
  norm_num

/-! ## Claim C10 -/

/-- Claim C10 (confirmed): for every coordinate `(lat, lng)` - including
out-of-range ones, since the validator performs no range check of its own -
the region validator returns `valid = true` with no distance computed when
the region code is absent, unknown to the table, or the sentinel region
`SPACE`, whose table center is `(0, 0)`. -/
theorem validator_passthrough_unknown_or_space (dist : Dist) (lat lng : ℚ) :
    validate_city_coherence dist lat lng "" = ⟨true, none, none, none, false⟩ ∧
    (∀ c : String, CITY_CENTERS.lookup c = none →
      validate_city_coherence dist lat lng c =
        ⟨true, none, none, none, false⟩) ∧
    validate_city_coherence dist lat lng "SPACE" =
      ⟨true, none, none, some "Space (ISS)", false⟩ ∧
    CITY_CENTERS.lookup "SPACE" = some (CityCenter.mk 0 0 "Space (ISS)") := by
  refine ⟨rfl, ?_, ?_, ?_⟩
  · intro c hc
    exact validate_not_tracked (Or.inr hc)
  · with_unfolding_all rfl
  · with_unfolding_all rfl

/-- Witness for C10 at the unknown region code `"ZZZ"` and the out-of-range
coordinate `(1234, 999)`. -/
theorem validator_passthrough_unknown_or_space_witness :
    validate_city_coherence (fun _ _ _ _ => 0) 1234 999 "ZZZ" =
      ⟨true, none, none, none, false⟩ :=
  (validator_passthrough_unknown_or_space (fun _ _ _ _ => 0) 1234 999).2.1
    "ZZZ" (by rfl)

/-! ## Claim C4 -/

/-- Claim C4 (confirmed): with both candidates present, the coherence status
is exactly determined by the distance `d`: Excellent iff `d < 50`, Good iff
`50 ≤ d < 200`, Warning iff `200 ≤ d < 500`, Conflict iff `500 ≤ d` (so the
boundary value 50 falls in Good); with exactly one candidate present the
status is SingleSource, with none NotFound. -/
theorem coherence_distance_classification (dist : Dist)
    (au il : ProviderResult) :
    (provPresent au = true → provPresent il = true →
      ((check_coherence dist au il).status = "excellent" ↔
        dist au.lat au.lng il.lat il.lng < 50) ∧
      ((check_coherence dist au il).status = "good" ↔
        50 ≤ dist au.lat au.lng il.lat il.lng ∧
          dist au.lat au.lng il.lat il.lng < 200) ∧
      ((check_coherence dist au il).status = "warning" ↔
        200 ≤ dist au.lat au.lng il.lat il.lng ∧
          dist au.lat au.lng il.lat il.lng < 500) ∧
      ((check_coherence dist au il).status = "conflict" ↔
        500 ≤ dist au.lat au.lng il.lat il.lng) ∧
      (check_coherence dist au il).distance_m =
        some (round01 (dist au.lat au.lng il.lat il.lng))) ∧
    (provPresent au = true → provPresent il = false →
      check_coherence dist au il = ⟨"single_source", none⟩) ∧
    (provPresent au = false → provPresent il = true →
      check_coherence dist au il = ⟨"single_source", none⟩) ∧
    (provPresent au = false → provPresent il = false →
      check_coherence dist au il = ⟨"not_found", none⟩) := by
  refine ⟨?_, ?_, ?_, ?_⟩
  · intro hau hil
    have hc : check_coherence dist au il =
        ⟨(if dist au.lat au.lng il.lat il.lng < 50 then "excellent"
          else if dist au.lat au.lng il.lat il.lng < 200 then "good"
          else if dist au.lat au.lng il.lat il.lng < 500 then "warning"
          else "conflict"),
          some (round01 (dist au.lat au.lng il.lat il.lng))⟩ := by
      simp [check_coherence, hau, hil]
    rw [hc]
    dsimp only
    set d := dist au.lat au.lng il.lat il.lng with hdd
    refine ⟨?_, ?_, ?_, ?_, rfl⟩
    · constructor
      · intro h
        by_contra hlt
        rw [if_neg hlt] at h
        split_ifs at h <;> exact absurd h (by decide)
      · intro h; rw [if_pos h]
    · constructor
      · intro h
        by_cases h1 : d < 50
        · rw [if_pos h1] at h; exact absurd h (by decide)
        · rw [if_neg h1] at h
          by_cases h2 : d < 200
          · exact ⟨not_lt.mp h1, h2⟩
          · rw [if_neg h2] at h
            split_ifs at h <;> exact absurd h (by decide)
      · rintro ⟨ha, hb⟩
        rw [if_neg (not_lt.mpr ha), if_pos hb]
    · constructor
      · intro h
        by_cases h1 : d < 50
        · rw [if_pos h1] at h; exact absurd h (by decide)
        · rw [if_neg h1] at h
          by_cases h2 : d < 200
          · rw [if_pos h2] at h; exact absurd h (by decide)
          · rw [if_neg h2] at h
            by_cases h3 : d < 500
            · exact ⟨not_lt.mp h2, h3⟩
            · rw [if_neg h3] at h; exact absurd h (by decide)
      · rintro ⟨ha, hb⟩
        rw [if_neg (not_lt.mpr (le_trans (by norm_num) ha)),
          if_neg (not_lt.mpr ha), if_pos hb]
    · constructor
      · intro h
        by_cases h1 : d < 50
        · rw [if_pos h1] at h; exact absurd h (by decide)
        · rw [if_neg h1] at h
          by_cases h2 : d < 200
          · rw [if_pos h2] at h; exact absurd h (by decide)
          · rw [if_neg h2] at h
            by_cases h3 : d < 500
            · rw [if_pos h3] at h; exact absurd h (by decide)
            · exact not_lt.mp h3
      · intro ha
        rw [if_neg (not_lt.mpr (le_trans (by norm_num) ha)),
          if_neg (not_lt.mpr (le_trans (by norm_num) ha)),
          if_neg (not_lt.mpr ha)]
  · intro hau hil; simp [check_coherence, hau, hil]
  · intro hau hil; simp [check_coherence, hau, hil]
  · intro hau hil; simp [check_coherence, hau, hil]

/-- Witness for C4: at distance 49.9 m between two present candidates the
status is Excellent, via the classification theorem. -/
theorem coherence_distance_classification_witness :
    (check_coherence (fun _ _ _ _ => (499 : ℚ)/10) ⟨true, 1, 1⟩
      ⟨true, 1, 1⟩).status = "excellent" :=
  (((coherence_distance_classification (fun _ _ _ _ => (499 : ℚ)/10)
      ⟨true, 1, 1⟩ ⟨true, 1, 1⟩).1 (by decide) (by decide)).1).mpr (by norm_num)

/-! ## Claim C8 -/

/-- Claim C8 counterexample: the validator compares the raw distance to the
radius, not the value rounded to 0.1 m. At distance 25000.03 m in a
default-radius (25 km) region, the source marks the coordinate invalid,
while the spec-mandated compare-after-rounding marks it valid: the two
classifications differ, so the claim is false. -/
theorem radius_comparison_not_rounded :
    (validate_city_coherence (fun _ _ _ _ => 25000.03) 43 7 "NCE").valid
        = false ∧
    (validate_city_coherence_specRounded (fun _ _ _ _ => 25000.03)
        43 7 "NCE").valid = true ∧
    (validate_city_coherence (fun _ _ _ _ => 25000.03) 43 7
        "NCE").distance_to_center = some 25000 := by
  refine ⟨by with_unfolding_all rfl, by with_unfolding_all rfl,
    by with_unfolding_all rfl⟩

/-- Claim C8 as amended (the distance is rounded to 0.1 m only in the
reported `distance_to_center` / `distance_m` fields; the radius comparison
and the coherence bucket comparisons are performed on the unrounded value):
for a known, non-sentinel region the validator's verdict is the raw-distance
comparison while the stored distance is rounded, and the coherence status is
classified on the raw distance while the stored distance is rounded. -/
theorem threshold_comparisons_use_raw_distance (dist : Dist) (lat lng : ℚ)
    (c : String) (city : CityCenter) (hc : ¬ c = "") (hs : ¬ c = "SPACE")
    (hl : CITY_CENTERS.lookup c = some city) :
    ((validate_city_coherence dist lat lng c).valid =
      decide (¬ dist lat lng city.lat city.lng >
        (CITY_MAX_RADIUS.lookup c).getD DEFAULT_CITY_RADIUS)) ∧
    ((validate_city_coherence dist lat lng c).distance_to_center =
      some (round01 (dist lat lng city.lat city.lng))) ∧
    (∀ au il : ProviderResult, provPresent au = true → provPresent il = true →
      check_coherence dist au il =
        ⟨(if dist au.lat au.lng il.lat il.lng < 50 then "excellent"
          else if dist au.lat au.lng il.lat il.lng < 200 then "good"
          else if dist au.lat au.lng il.lat il.lng < 500 then "warning"
          else "conflict"),
          some (round01 (dist au.lat au.lng il.lat il.lng))⟩) := by
  refine ⟨?_, ?_, ?_⟩
  · simp [validate_city_coherence, hc, hs, hl]
  · simp [validate_city_coherence, hc, hs, hl]
  · intro au il hau hil
    simp [check_coherence, hau, hil]

/-- Witness for amended C8: the stored distance is the rounded value 25000
while the comparison used the raw 25000.03. -/
theorem threshold_comparisons_use_raw_distance_witness :
    (validate_city_coherence (fun _ _ _ _ => 25000.03) 1 2
        "NCE").distance_to_center = some 25000 := by
  have h := (threshold_comparisons_use_raw_distance (fun _ _ _ _ => 25000.03)
    1 2 "NCE" (CityCenter.mk 43.7102 7.2620 "Nice") (by decide) (by decide)
    (by with_unfolding_all rfl)).2.1
  rw [h]; with_unfolding_all rfl

/-! ## Claim C6 -/

/-- Claim C6 (code bug): `_pick_best_nominatim_result` is supposed to choose
the validated result with the smallest distance to the region center, but
`check['distance_to_center'] or float('inf')` treats a rounded distance of
exactly `0.0` - the best possible result - as infinity, because `0.0` is
falsy. With a result exactly at the Paris center (region-valid at distance
0) and a second valid result at 1000 m, the picker returns the 1000 m
result; with the center result alone it returns nothing at all. -/
theorem nominatim_picker_skips_zero_distance_result :
    ((validate_city_coherence
        (fun la lo _ _ => if la = 48.8566 ∧ lo = 2.3522 then 0 else 1000)
        48.8566 2.3522 "PA").valid = true ∧
      (validate_city_coherence
        (fun la lo _ _ => if la = 48.8566 ∧ lo = 2.3522 then 0 else 1000)
        48.8566 2.3522 "PA").distance_to_center = some 0) ∧
    pick_best_nominatim_result
      (fun la lo _ _ => if la = 48.8566 ∧ lo = 2.3522 then 0 else 1000)
      [⟨48.8566, 2.3522⟩] "PA" = none ∧
    pick_best_nominatim_result
      (fun la lo _ _ => if la = 48.8566 ∧ lo = 2.3522 then 0 else 1000)
      [⟨48.8566, 2.3522⟩, ⟨48.87, 2.36⟩] "PA" = some ⟨48.87, 2.36⟩ := by
  have hv1 : validate_city_coherence
      (fun la lo _ _ => if la = 48.8566 ∧ lo = 2.3522 then 0 else 1000)
      48.8566 2.3522 "PA" = ⟨true, some 0, some 40000, some "Paris", false⟩ := by
    rw [validate_eval 0 40000 (by decide) (by decide) lookup_PA
      (by rw [radius_PA]; rfl) (by norm_num)]
    norm_num
    exact round01_intCast 0
  have hv2 : validate_city_coherence
      (fun la lo _ _ => if la = 48.8566 ∧ lo = 2.3522 then 0 else 1000)
      48.87 2.36 "PA" = ⟨true, some 1000, some 40000, some "Paris", false⟩ := by
    rw [validate_eval 1000 40000 (by decide) (by decide) lookup_PA
      (by rw [radius_PA]; rfl) (by norm_num)]
    norm_num
    exact round01_intCast 1000
  have hnz1 : nearZero (48.8566 : ℚ) 2.3522 = false :=
    nearZero_false_left (by rw [abs_of_pos (by norm_num)]; norm_num)
  have hnz2 : nearZero (48.87 : ℚ) 2.36 = false :=
    nearZero_false_left (by rw [abs_of_pos (by norm_num)]; norm_num)
  have hbPA : (!decide ("PA" = "") && (CITY_CENTERS.lookup "PA").isSome)
      = true := by simp [lookup_PA]
  refine ⟨⟨by rw [hv1], by rw [hv1]⟩, ?_, ?_⟩
  · simp only [pick_best_nominatim_result, pickLoop, hnz1, hbPA, hv1,
      Bool.false_eq_true, if_false, if_true]
    norm_num
  · simp only [pick_best_nominatim_result, pickLoop, hnz1, hnz2, hbPA, hv1,
      hv2, Bool.false_eq_true, if_false, if_true]
    norm_num [WithTop.coe_lt_top]

/-! ## Stable-sort and dedup lemmas -/

theorem insertBy_perm (gt : α → α → Bool) (x : α) :
    ∀ l : List α, (insertBy gt x l).Perm (x :: l)
  | [] => .refl _
  | y :: ys => by
    unfold insertBy
    split
    · exact ((insertBy_perm gt x ys).cons y).trans (List.Perm.swap x y ys)
    · exact .refl _

theorem sortBy_perm (gt : α → α → Bool) : ∀ l : List α, (sortBy gt l).Perm l
  | [] => .refl _
  | x :: xs => by
    unfold sortBy
    exact (insertBy_perm gt x (sortBy gt xs)).trans ((sortBy_perm gt xs).cons x)

theorem insertBy_sorted (x : Int × String) :
    ∀ {l : List (Int × String)}, l.Pairwise (fun a b => b.1 ≤ a.1) →
      (insertBy scoreGt x l).Pairwise (fun a b => b.1 ≤ a.1) := by
  intro l
  induction l with
  | nil => intro _; simp [insertBy]
  | cons y ys ih =>
    intro h
    rw [List.pairwise_cons] at h
    unfold insertBy
    split
    · next hgt =>
      have hxy : x.1 < y.1 := by simpa [scoreGt] using hgt
      rw [List.pairwise_cons]
      refine ⟨?_, ih h.2⟩
      intro z hz
      rcases List.mem_cons.mp ((insertBy_perm scoreGt x ys).mem_iff.mp hz)
        with hz2 | hz2
      · rw [hz2]; exact le_of_lt hxy
      · exact h.1 z hz2
    · next hgt =>
      have hyx : y.1 ≤ x.1 := by simpa [scoreGt, not_lt] using hgt
      rw [List.pairwise_cons]
      constructor
      · intro z hz
        rcases List.mem_cons.mp hz with hz2 | hz2
        · rw [hz2]; exact hyx
        · exact le_trans (h.1 z hz2) hyx
      · exact List.pairwise_cons.mpr h

theorem sortBy_scores_sorted :
    ∀ l : List (Int × String),
      (sortBy scoreGt l).Pairwise (fun a b => b.1 ≤ a.1)
  | [] => by simp [sortBy]
  | x :: xs => by
    unfold sortBy
    exact insertBy_sorted x (sortBy_scores_sorted xs)

theorem dedupKeep_sublist :
    ∀ (seen : List String) (l : List (Int × String)),
      (dedupKeep seen l).Sublist l
  | _, [] => .slnil
  | seen, (s, a) :: rest => by
    unfold dedupKeep
    split
    · exact .cons₂ _ (dedupKeep_sublist _ rest)
    · exact .cons _ (dedupKeep_sublist seen rest)

theorem dedupKeep_score :
    ∀ {seen : List String} {l : List (Int × String)} {x : Int × String},
      x ∈ dedupKeep seen l → 40 ≤ x.1 := by
  intro seen l
  induction l generalizing seen with
  | nil => intro x hx; simp [dedupKeep] at hx
  | cons p rest ih =>
    intro x hx
    obtain ⟨s, a⟩ := p
    unfold dedupKeep at hx
    split at hx
    · next hcond =>
      rcases List.mem_cons.mp hx with h | h
      · rw [h]
        exact of_decide_eq_true (Bool.and_elim_right hcond)
      · exact ih h
    · exact ih hx

theorem dedupKeep_not_seen :
    ∀ {seen : List String} {l : List (Int × String)} {x : Int × String},
      x ∈ dedupKeep seen l → seen.contains (toUpperStr x.2) = false := by
  intro seen l
  induction l generalizing seen with
  | nil => intro x hx; simp [dedupKeep] at hx
  | cons p rest ih =>
    intro x hx
    obtain ⟨s, a⟩ := p
    unfold dedupKeep at hx
    split at hx
    · next hcond =>
      rcases List.mem_cons.mp hx with h | h
      · rw [h]
        have := Bool.and_elim_left hcond
        simpa using this
      · have h2 := ih h
        simp only [List.contains_cons, Bool.or_eq_false_iff] at h2
        exact h2.2
    · exact ih hx

theorem dedupKeep_keys_distinct :
    ∀ (seen : List String) (l : List (Int × String)),
      (dedupKeep seen l).Pairwise
        (fun a b => ¬ toUpperStr a.2 = toUpperStr b.2)
  | seen, [] => by simp [dedupKeep]
  | seen, (s, a) :: rest => by
    unfold dedupKeep
    split
    · next hcond =>
      rw [List.pairwise_cons]
      refine ⟨?_, dedupKeep_keys_distinct _ rest⟩
      intro z hz heq
      have h2 := dedupKeep_not_seen hz
      simp only [List.contains_cons, Bool.or_eq_false_iff] at h2
      have h3 : (toUpperStr z.2 == toUpperStr a) = false := h2.1
      rw [← heq] at h3
      simp at h3
    · exact dedupKeep_keys_distinct seen rest

theorem dedupKeep_max :
    ∀ {l : List (Int × String)},
      l.Pairwise (fun a b => b.1 ≤ a.1) →
      ∀ {seen : List String} {x : Int × String}, x ∈ dedupKeep seen l →
        ∀ y ∈ l, toUpperStr y.2 = toUpperStr x.2 → y.1 ≤ x.1 := by
  intro l
  induction l with
  | nil => intro _ seen x hx; simp [dedupKeep] at hx
  | cons p rest ih =>
    intro hs seen x hx y hy hkey
    rw [List.pairwise_cons] at hs
    obtain ⟨s, a⟩ := p
    unfold dedupKeep at hx
    split at hx
    · next hcond =>
      rcases List.mem_cons.mp hx with h | h
      · rcases List.mem_cons.mp hy with h2 | h2
        · rw [h2, h]
        · rw [h]
          exact hs.1 y h2
      · rcases List.mem_cons.mp hy with h2 | h2
        · exfalso
          have hns := dedupKeep_not_seen h
          simp only [List.contains_cons, Bool.or_eq_false_iff] at hns
          have h3 : (toUpperStr x.2 == toUpperStr a) = false := hns.1
          have h4 : toUpperStr a = toUpperStr x.2 := by
            rw [h2] at hkey; exact hkey
          rw [h4] at h3
          simp at h3
        · exact ih hs.2 h y h2 hkey
    · next hcond =>
      rcases List.mem_cons.mp hy with h2 | h2
      · -- the head was skipped although its key (the key of the kept `x`)
        -- is unseen, so its score must be below 40
        have hns := dedupKeep_not_seen hx
        have hxs := dedupKeep_score hx
        rw [Bool.not_eq_true, Bool.and_eq_false_iff] at hcond
        rcases hcond with hc | hc
        · exfalso
          rw [Bool.not_eq_false'] at hc
          have h4 : toUpperStr a = toUpperStr x.2 := by
            rw [h2] at hkey; exact hkey
          rw [h4] at hc
          rw [hns] at hc
          exact Bool.false_ne_true hc
        · have h5 : ¬ (40 ≤ s) := of_decide_eq_false hc
          have hs40 : s < 40 := lt_of_not_le h5
          rw [h2]
          calc (s : Int) ≤ 40 := le_of_lt hs40
            _ ≤ x.1 := hxs
      · exact ih hs.2 hx y h2 hkey

/-! ## Claim C5 -/

/-- Claim C5 counterexample: the filter stage of `_recombine_fragments`
keeps every candidate scoring at least 40 regardless of locale - there is no
separate 50 threshold for French-style grammars. A French candidate scored
45 by `_score_french_address` (as `"BON CHAT"` is: +20 length, +10 two
words, +15 vowels, no gazetteer bonus, no malus) is kept for the French
city `PA`, although the claim requires at least 50. -/
theorem french_candidate_kept_below_fifty :
    score_french_address "RUE BON CHAT" "BON CHAT" KNOWN_FR_NAMES = 45 ∧
    CITY_COUNTRIES.lookup "PA" = some "fr" ∧
    recombine_fragments "PA" [(45, "Rue Bon Chat")] [] = ["Rue Bon Chat"] ∧
    ¬ (50 ≤ (45 : Int)) := by
  refine ⟨by decide, by decide, by decide, by decide⟩

/-- Claim C5 as amended (the score threshold is 40 for both the UK-style and
the French-style grammars; dedup and top-5 as claimed): the filter stage
returns at most 5 candidates; each returned address comes from a candidate
of the input scoring at least 40 whose score is maximal among the input
candidates with the same uppercased address; the retained scored list is
ordered by decreasing score and its uppercased addresses are pairwise
distinct; the returned list is exactly the addresses of the retained scored
list. -/
theorem recombine_filter_threshold_dedup_top5 (cands : List (Int × String)) :
    (recombineFilter cands).length ≤ 5 ∧
    recombineFilter cands = (recombineFilterScored cands).map Prod.snd ∧
    (recombineFilterScored cands).Pairwise (fun a b => b.1 ≤ a.1) ∧
    (recombineFilterScored cands).Pairwise
      (fun a b => ¬ toUpperStr a.2 = toUpperStr b.2) ∧
    (∀ x ∈ recombineFilterScored cands, x ∈ cands ∧ 40 ≤ x.1 ∧
      ∀ y ∈ cands, toUpperStr y.2 = toUpperStr x.2 → y.1 ≤ x.1) := by
  have htake : (recombineFilterScored cands).Sublist
      (dedupKeep [] (sortBy scoreGt cands)) := List.take_sublist _ _
  have hdedup := dedupKeep_sublist [] (sortBy scoreGt cands)
  have hsorted := sortBy_scores_sorted cands
  have hperm := sortBy_perm scoreGt cands
  refine ⟨?_, rfl, ?_, ?_, ?_⟩
  · rw [recombineFilter, List.length_map, recombineFilterScored]
    exact le_trans (List.length_take_le 5 _) (le_refl 5)
  · exact hsorted.sublist (htake.trans hdedup)
  · exact (dedupKeep_keys_distinct [] (sortBy scoreGt cands)).sublist htake
  · intro x hx
    have hxd : x ∈ dedupKeep [] (sortBy scoreGt cands) := htake.mem hx
    refine ⟨hperm.mem_iff.mp ((hdedup.mem) hxd), dedupKeep_score hxd, ?_⟩
    intro y hy hkey
    exact dedupKeep_max hsorted hxd y (hperm.mem_iff.mpr hy) hkey

/-- Witness for amended C5 on a concrete duplicate pair: the higher-scoring
spelling survives the case-insensitive dedup (applying the theorem for the
score bound, the rest by evaluation). -/
theorem recombine_filter_threshold_dedup_top5_witness :
    (∀ x ∈ recombineFilterScored [(45, "A"), (50, "a")], 40 ≤ x.1) ∧
    recombineFilter [(45, "A"), (50, "a")] = ["a"] :=
  ⟨fun x hx =>
    ((recombine_filter_threshold_dedup_top5 [(45, "A"), (50, "a")]).2.2.2.2
      x hx).2.1,
   by decide⟩

/-! ## Claim C9 -/

theorem street_fragments_perm (lines : List String) {o1 o2 : List String}
    (h : o1.Perm o2) :
    (street_fragments lines o1).Perm (street_fragments lines o2) :=
  List.Perm.flatMap_left lines (fun _ _ => h.filterMap _)

theorem building_fragments_perm (lines : List String) {o1 o2 : List String}
    (h : o1.Perm o2) :
    (building_fragments lines o1).Perm (building_fragments lines o2) :=
  List.Perm.flatMap_left lines (fun _ _ => h.filterMap _)

/-- Claim C9 counterexample: the ranked list returned by the recombination
engine depends on the iteration order of `UK_STREET_TYPES_SET`, which is a
Python set of strings and hence iterates in a hash-seed-dependent order
that differs between interpreter processes. On the OCR text
`"SPRING\nSTREET ROAD"` the two equal-score candidates swap places under
two orders of the same set, so identical input does not always yield the
identical ranked candidate list. -/
theorem recombine_order_dependent :
    (UK_STREET_TYPES_SET).Perm ("ROAD" :: (UK_STREET_TYPES_SET.erase "ROAD")) ∧
    recombine_fragments "LDN" []
      (recombine_uk (mkLines "SPRING\nSTREET ROAD") UK_STREET_TYPES_SET
        UK_BUILDING_TYPES_SET) = ["SPRING STREET", "SPRING ROAD"] ∧
    recombine_fragments "LDN" []
      (recombine_uk (mkLines "SPRING\nSTREET ROAD")
        ("ROAD" :: (UK_STREET_TYPES_SET.erase "ROAD"))
        UK_BUILDING_TYPES_SET) = ["SPRING ROAD", "SPRING STREET"] := by
  refine ⟨by decide, by decide, by decide⟩

/-- Claim C9 as amended: the multiset of scored UK candidates produced by
`_recombine_uk` is a deterministic function of the input text - it is
invariant (up to permutation) under any reordering of the street-type and
building-type sets. Only the relative order of candidates, and hence the
ranked list after the equal-score-stable sort, dedup and top-5 cut, depends
on the interpreter's set iteration order. -/
theorem recombine_uk_candidates_perm_invariant (lines : List String)
    {st1 st2 bt1 bt2 : List String} (hst : st1.Perm st2)
    (hbt : bt1.Perm bt2) :
    (recombine_uk lines st1 bt1).Perm (recombine_uk lines st2 bt2) := by
  unfold recombine_uk
  apply List.Perm.flatMap_left
  intro name _
  exact ((street_fragments_perm lines hst).filterMap _).append
    ((building_fragments_perm lines hbt).flatMap_right _)

/-- Witness for amended C9: the candidate multisets for the two concrete
iteration orders of the counterexample are permutations of each other. -/
theorem recombine_uk_candidates_perm_invariant_witness :
    (recombine_uk (mkLines "SPRING\nSTREET ROAD") UK_STREET_TYPES_SET
        UK_BUILDING_TYPES_SET).Perm
      (recombine_uk (mkLines "SPRING\nSTREET ROAD")
        ("ROAD" :: (UK_STREET_TYPES_SET.erase "ROAD"))
        UK_BUILDING_TYPES_SET) :=
  recombine_uk_candidates_perm_invariant (mkLines "SPRING\nSTREET ROAD")
    (by decide) (List.Perm.refl _)

/-! ## Search pipeline case lemmas -/

theorem search_aroundus (dist : Dist) (inp : SearchInput) (city : String)
    (hA : aroundus_valid dist inp city = true) :
    (search dist inp city).found = true ∧
    (search dist inp city).lat = some (aroundus_result inp).lat ∧
    (search dist inp city).lng = some (aroundus_result inp).lng ∧
    (search dist inp city).source = some "aroundus" := by
  have hb1 : best1 dist inp city = some "aroundus" := by
    simp [best1, hA]
  have hb2 : best2 dist inp city = some "aroundus" := by
    simp [best2, hb1]
  have hb : bestSource dist inp city = some "aroundus" := by
    simp [bestSource, hb2]
  simp only [search, hb]
  by_cases hc : city = "" <;> simp [hc]

theorem search_illuminate (dist : Dist) (inp : SearchInput) (city : String)
    (hA : aroundus_valid dist inp city = false)
    (hI : illuminate_valid dist inp city = true) :
    (search dist inp city).found = true ∧
    (search dist inp city).lat = some (illuminate_result inp).lat ∧
    (search dist inp city).lng = some (illuminate_result inp).lng ∧
    (search dist inp city).source = some "illuminateartofficial" := by
  have hb1 : best1 dist inp city = some "illuminate" := by
    simp [best1, hA, hI]
  have hb2 : best2 dist inp city = some "illuminate" := by
    simp [best2, hb1]
  have hb : bestSource dist inp city = some "illuminate" := by
    simp [bestSource, hb2]
  simp only [search, hb]
  by_cases hc : city = "" <;> simp [hc]

theorem search_pnote (dist : Dist) (inp : SearchInput) (city : String)
    (hp : pnote_ok dist inp city = true) :
    (search dist inp city).found = true ∧
    (search dist inp city).lat = some inp.pnote.lat ∧
    (search dist inp city).lng = some inp.pnote.lng ∧
    (search dist inp city).source = some "pnote" := by
  have hb1 : best1 dist inp city = none := by
    have h := Bool.and_elim_left (Bool.and_elim_left (Bool.and_elim_left hp))
    exact Option.isNone_iff_eq_none.mp h
  have hb2 : best2 dist inp city = some "pnote" := by
    simp [best2, hb1, hp]
  have hb : bestSource dist inp city = some "pnote" := by
    simp [bestSource, hb2]
  simp only [search, hb]
  by_cases hc : city = "" <;> simp [hc]

theorem search_flickr (dist : Dist) (inp : SearchInput) (city : String)
    (hf : flickr_ok dist inp city = true) :
    (search dist inp city).found = true ∧
    (search dist inp city).lat = some inp.flickr.lat ∧
    (search dist inp city).lng = some inp.flickr.lng ∧
    (search dist inp city).source = some "flickr" := by
  have hb2 : best2 dist inp city = none := by
    have h := Bool.and_elim_left (Bool.and_elim_left (Bool.and_elim_left hf))
    exact Option.isNone_iff_eq_none.mp h
  have hb : bestSource dist inp city = some "flickr" := by
    simp [bestSource, hb2, hf]
  simp only [search, hb]
  by_cases hc : city = "" <;> simp [hc]

theorem search_none (dist : Dist) (inp : SearchInput) (city : String)
    (hA : aroundus_valid dist inp city = false)
    (hI : illuminate_valid dist inp city = false)
    (hp : pnote_ok dist inp city = false)
    (hf : flickr_ok dist inp city = false) :
    (search dist inp city).found = false := by
  have hb1 : best1 dist inp city = none := by simp [best1, hA, hI]
  have hb2 : best2 dist inp city = none := by simp [best2, hb1, hp]
  have hb : bestSource dist inp city = none := by simp [bestSource, hb2, hf]
  simp only [search, hb]
  by_cases hc : city = "" <;> simp [hc]

theorem search_coherence_both (dist : Dist) (inp : SearchInput)
    (city : String)
    (hA : aroundus_valid dist inp city = true)
    (hI : illuminate_valid dist inp city = true) :
    (search dist inp city).coherence =
      check_coherence dist (aroundus_result inp) (illuminate_result inp) := by
  have hb1 : best1 dist inp city = some "aroundus" := by simp [best1, hA, hI]
  have hp : pnote_ok dist inp city = false := by simp [pnote_ok, hb1]
  have hb2 : best2 dist inp city = some "aroundus" := by simp [best2, hb1]
  have hf : flickr_ok dist inp city = false := by simp [flickr_ok, hb2]
  have hb : bestSource dist inp city = some "aroundus" := by
    simp [bestSource, hb2]
  simp only [search, hb, hp, hf, hA, hI]
  by_cases hc : city = "" <;> simp [hc]

theorem search_coherence_onlyA (dist : Dist) (inp : SearchInput)
    (city : String)
    (hA : aroundus_valid dist inp city = true)
    (hI : illuminate_valid dist inp city = false) :
    (search dist inp city).coherence =
      check_coherence dist (aroundus_result inp) noResult := by
  have hb1 : best1 dist inp city = some "aroundus" := by simp [best1, hA, hI]
  have hp : pnote_ok dist inp city = false := by simp [pnote_ok, hb1]
  have hb2 : best2 dist inp city = some "aroundus" := by simp [best2, hb1]
  have hf : flickr_ok dist inp city = false := by simp [flickr_ok, hb2]
  have hb : bestSource dist inp city = some "aroundus" := by
    simp [bestSource, hb2]
  simp only [search, hb, hp, hf, hA, hI]
  by_cases hc : city = "" <;> simp [hc]

theorem search_coherence_onlyB (dist : Dist) (inp : SearchInput)
    (city : String)
    (hA : aroundus_valid dist inp city = false)
    (hI : illuminate_valid dist inp city = true) :
    (search dist inp city).coherence =
      check_coherence dist noResult (illuminate_result inp) := by
  have hb1 : best1 dist inp city = some "illuminate" := by
    simp [best1, hA, hI]
  have hp : pnote_ok dist inp city = false := by simp [pnote_ok, hb1]
  have hb2 : best2 dist inp city = some "illuminate" := by simp [best2, hb1]
  have hf : flickr_ok dist inp city = false := by simp [flickr_ok, hb2]
  have hb : bestSource dist inp city = some "illuminate" := by
    simp [bestSource, hb2]
  simp only [search, hb, hp, hf, hA, hI]
  by_cases hc : city = "" <;> simp [hc]

theorem process_one_found (dist : Dist) (pin : ProcessInput)
    (city now : String) (h : pin.search.found = true) :
    process_one dist pin city now =
      { lat := pin.search.lat, lng := pin.search.lng,
        geo_source := pin.search.source,
        geo_confidence :=
          if pin.search.coherence.status = "excellent" ∨
              pin.search.coherence.status = "good" then "high" else "medium",
        location_unknown := false, geo_search_exhausted := some false,
        geo_search_date := none } := by
  simp only [process_one, h, if_true]
  by_cases h1 : pin.search.coherence.status = "excellent" ∨
      pin.search.coherence.status = "good"
  · simp [h1]
  · simp [h1]

/-! ## Claim C3 -/

/-- Claim C3 (confirmed): when both catalogs yield region-valid candidates
the pipeline selects Catalog A's (AroundUs's) coordinate whatever the
coherence status, with final confidence High exactly when the status is
Excellent or Good and Medium otherwise; when exactly one catalog yields a
region-valid candidate the pipeline resolves with that catalog's coordinate
at confidence Medium (the status is then SingleSource - or NotFound for a
zero coordinate - and in either case not Excellent/Good). -/
theorem catalogA_priority_and_confidence (dist : Dist) (inp : SearchInput)
    (city now : String) (pin : ProcessInput)
    (hs : pin.search = search dist inp city) :
    (aroundus_valid dist inp city = true →
      illuminate_valid dist inp city = true →
      (process_one dist pin city now).lat = some (aroundus_result inp).lat ∧
      (process_one dist pin city now).lng = some (aroundus_result inp).lng ∧
      (process_one dist pin city now).geo_source = some "aroundus" ∧
      (process_one dist pin city now).geo_confidence =
        (if (search dist inp city).coherence.status = "excellent" ∨
            (search dist inp city).coherence.status = "good"
         then "high" else "medium")) ∧
    (aroundus_valid dist inp city = true →
      illuminate_valid dist inp city = false →
      (process_one dist pin city now).lat = some (aroundus_result inp).lat ∧
      (process_one dist pin city now).lng = some (aroundus_result inp).lng ∧
      (process_one dist pin city now).geo_source = some "aroundus" ∧
      (process_one dist pin city now).geo_confidence = "medium") ∧
    (aroundus_valid dist inp city = false →
      illuminate_valid dist inp city = true →
      (process_one dist pin city now).lat =
        some (illuminate_result inp).lat ∧
      (process_one dist pin city now).lng =
        some (illuminate_result inp).lng ∧
      (process_one dist pin city now).geo_source =
        some "illuminateartofficial" ∧
      (process_one dist pin city now).geo_confidence = "medium") := by
  refine ⟨?_, ?_, ?_⟩
  · intro hA hI
    obtain ⟨hf, hlat, hlng, hsrc⟩ := search_aroundus dist inp city hA
    have hpo := process_one_found dist pin city now (by rw [hs]; exact hf)
    rw [hpo]
    refine ⟨by simp [hs, hlat], by simp [hs, hlng], by simp [hs, hsrc], ?_⟩
    dsimp only
    rw [hs]
  · intro hA hI
    obtain ⟨hf, hlat, hlng, hsrc⟩ := search_aroundus dist inp city hA
    have hpo := process_one_found dist pin city now (by rw [hs]; exact hf)
    have hcoh := search_coherence_onlyA dist inp city hA hI
    have hstat : ¬ ((search dist inp city).coherence.status = "excellent" ∨
        (search dist inp city).coherence.status = "good") := by
      rw [hcoh]
      unfold check_coherence
      split
      · next hpres =>
        exfalso
        have hnp : provPresent noResult = false := by decide
        rw [Bool.and_eq_true] at hpres
        rw [hnp] at hpres
        exact Bool.false_ne_true hpres.2
      · split
        · intro h; rcases h with h | h <;> exact absurd h (by decide)
        · split
          · intro h; rcases h with h | h <;> exact absurd h (by decide)
          · intro h; rcases h with h | h <;> exact absurd h (by decide)
    rw [hpo]
    refine ⟨by simp [hs, hlat], by simp [hs, hlng], by simp [hs, hsrc], ?_⟩
    dsimp only
    rw [hs, if_neg hstat]
  · intro hA hI
    obtain ⟨hf, hlat, hlng, hsrc⟩ := search_illuminate dist inp city hA hI
    have hpo := process_one_found dist pin city now (by rw [hs]; exact hf)
    have hcoh := search_coherence_onlyB dist inp city hA hI
    have hstat : ¬ ((search dist inp city).coherence.status = "excellent" ∨
        (search dist inp city).coherence.status = "good") := by
      rw [hcoh]
      unfold check_coherence
      split
      · next hpres =>
        exfalso
        have hnp : provPresent noResult = false := by decide
        rw [Bool.and_eq_true] at hpres
        rw [hnp] at hpres
        exact Bool.false_ne_true hpres.1
      · split
        · intro h; rcases h with h | h <;> exact absurd h (by decide)
        · split
          · intro h; rcases h with h | h <;> exact absurd h (by decide)
          · intro h; rcases h with h | h <;> exact absurd h (by decide)
    rw [hpo]
    refine ⟨by simp [hs, hlat], by simp [hs, hlng], by simp [hs, hsrc], ?_⟩
    dsimp only
    rw [hs, if_neg hstat]

/-- Witness for C3: both catalogs report region-valid Paris results 30 m from
the center; the pipeline resolves with Catalog A's coordinate. -/
theorem catalogA_priority_and_confidence_witness :
    (process_one (fun _ _ _ _ => 30)
        ⟨search (fun _ _ _ _ => 30)
            ⟨true, true, false, false, ⟨true, 49, 2⟩, ⟨true, 49, 3⟩, noResult,
              noResult⟩ "PA",
          false, noResult, false, noResult, false, noResult, "", false, none⟩
        "PA" "t").lat = some 49 ∧
    (process_one (fun _ _ _ _ => 30)
        ⟨search (fun _ _ _ _ => 30)
            ⟨true, true, false, false, ⟨true, 49, 2⟩, ⟨true, 49, 3⟩, noResult,
              noResult⟩ "PA",
          false, noResult, false, noResult, false, noResult, "", false, none⟩
        "PA" "t").geo_source = some "aroundus" := by
  have hck : ∀ la ln : ℚ, checkCity (fun _ _ _ _ => (30 : ℚ)) "PA" la ln
      = true := by
    intro la ln
    have hv := @validate_eval 30 40000 (fun _ _ _ _ => (30 : ℚ)) la ln "PA"
      (CityCenter.mk 48.8566 2.3522 "Paris")
      (by decide) (by decide) lookup_PA (by rw [radius_PA]; rfl) rfl
    rw [checkCity, if_neg (by decide : ¬("PA" : String) = ""), hv]
    dsimp only
    norm_num
  have hA : aroundus_valid (fun _ _ _ _ => (30 : ℚ))
      ⟨true, true, false, false, ⟨true, 49, 2⟩, ⟨true, 49, 3⟩, noResult,
        noResult⟩ "PA" = true := by
    simp [aroundus_valid, aroundus_result, hck]
  have hI : illuminate_valid (fun _ _ _ _ => (30 : ℚ))
      ⟨true, true, false, false, ⟨true, 49, 2⟩, ⟨true, 49, 3⟩, noResult,
        noResult⟩ "PA" = true := by
    simp [illuminate_valid, illuminate_result, hck]
  have hmain := (catalogA_priority_and_confidence (fun _ _ _ _ => 30)
    ⟨true, true, false, false, ⟨true, 49, 2⟩, ⟨true, 49, 3⟩, noResult,
      noResult⟩ "PA" "t"
    ⟨search (fun _ _ _ _ => 30)
        ⟨true, true, false, false, ⟨true, 49, 2⟩, ⟨true, 49, 3⟩, noResult,
          noResult⟩ "PA",
      false, noResult, false, noResult, false, noResult, "", false, none⟩
    rfl).1 hA hI
  exact ⟨hmain.1, hmain.2.2.1⟩

/-! ## Claim C7 -/

/-- Claim C7 (confirmed): when the searcher found nothing and every fallback
provider (EXIF, OCR, Vision, interactive) yields nothing, an object whose
region code is in the region table is emitted with exactly the region-center
coordinate, confidence Low, the exhausted flag set and a timestamp - the
state that distinguishes a confirmed-unresolvable object from one not yet
attempted. -/
theorem exhausted_city_center_fallback (dist : Dist) (pin : ProcessInput)
    (city now : String) (ci : CityCenter)
    (h1 : pin.search.found = false) (h2 : pin.exif.found = false)
    (h3 : pin.ocr.found = false) (h4 : pin.vision.found = false)
    (h5 : pin.interactiveResult = none)
    (hc : CITY_CENTERS.lookup city = some ci) :
    process_one dist pin city now =
      { lat := some ci.lat, lng := some ci.lng,
        geo_source := some "city_center", geo_confidence := "low",
        location_unknown := true, geo_search_exhausted := some true,
        geo_search_date := some now } := by
  simp [process_one, h1, h2, h3, h4, h5, process_one.process_one_fallback, hc]

/-- Witness for C7 at region `"PA"`. -/
theorem exhausted_city_center_fallback_witness :
    process_one (fun _ _ _ _ => 0)
      ⟨⟨false, none, none, none, ⟨"not_found", none⟩, [], none⟩,
        false, noResult, false, noResult, false, noResult, "", false, none⟩
      "PA" "2026-02-03T04:05:06" =
      { lat := some 48.8566, lng := some 2.3522,
        geo_source := some "city_center", geo_confidence := "low",
        location_unknown := true, geo_search_exhausted := some true,
        geo_search_date := some "2026-02-03T04:05:06" } :=
  exhausted_city_center_fallback (fun _ _ _ _ => 0)
    ⟨⟨false, none, none, none, ⟨"not_found", none⟩, [], none⟩,
      false, noResult, false, noResult, false, noResult, "", false, none⟩
    "PA" "2026-02-03T04:05:06" (CityCenter.mk 48.8566 2.3522 "Paris")
    rfl rfl rfl rfl rfl lookup_PA

/-! ## Claim C1 -/

/-- Claim C1, counterexample: with the distance function reporting 343900 m
(London seen from Paris), an EXIF coordinate is emitted as the final
coordinate with source `exif_image_lieu` even though the region validator
rejects it for the supplied region code `PA` - the EXIF fallback acceptance
performs no region validation. -/
theorem exif_accepted_without_region_validation :
    (process_one (fun _ _ _ _ => 343900)
        ⟨⟨false, none, none, none, ⟨"not_found", none⟩, [], none⟩,
          true, ⟨true, 51.5074, -0.1278⟩, false, noResult, false, noResult,
          "", false, none⟩
        "PA" "t").lat = some 51.5074 ∧
    (process_one (fun _ _ _ _ => 343900)
        ⟨⟨false, none, none, none, ⟨"not_found", none⟩, [], none⟩,
          true, ⟨true, 51.5074, -0.1278⟩, false, noResult, false, noResult,
          "", false, none⟩
        "PA" "t").lng = some (-0.1278) ∧
    (process_one (fun _ _ _ _ => 343900)
        ⟨⟨false, none, none, none, ⟨"not_found", none⟩, [], none⟩,
          true, ⟨true, 51.5074, -0.1278⟩, false, noResult, false, noResult,
          "", false, none⟩
        "PA" "t").geo_source = some "exif_image_lieu" ∧
    (validate_city_coherence (fun _ _ _ _ => 343900) 51.5074 (-0.1278)
      "PA").valid = false := by
  refine ⟨rfl, rfl, rfl, ?_⟩
  have hv := @validate_eval 343900 40000 (fun _ _ _ _ => 343900)
    51.5074 (-0.1278) "PA" (CityCenter.mk 48.8566 2.3522 "Paris")
    (by decide) (by decide) lookup_PA (by rw [radius_PA]; rfl) rfl
  rw [hv]
  dsimp only
  norm_num

/-- Claim C1, amended: region validation does guard the searcher pipeline
(catalogs, Pnote, Flickr), the Vision fallback, and the Nominatim selection
behind the OCR geocoder - but not the EXIF and interactive fallbacks, which
the counterexample shows are accepted unvalidated. -/
theorem region_validation_covers_catalog_and_fallback_sources :
    (∀ (dist : Dist) (inp : SearchInput) (city : String),
      (search dist inp city).found = true →
      ∃ la ln : ℚ, (search dist inp city).lat = some la ∧
        (search dist inp city).lng = some ln ∧
        (validate_city_coherence dist la ln city).valid = true) ∧
    (∀ (dist : Dist) (pin : ProcessInput) (city now : String),
      pin.search.found = false →
      (process_one dist pin city now).geo_source = some "vision" →
      (validate_city_coherence dist pin.vision.lat pin.vision.lng city).valid
        = true) ∧
    (∀ (dist : Dist) (rs : List NomResult) (city : String) (r : NomResult),
      pick_best_nominatim_result dist rs city = some r →
      (validate_city_coherence dist r.lat r.lng city).valid = true) := by
  refine ⟨?_, ?_, ?_⟩
  · intro dist inp city hfound
    by_cases hA : aroundus_valid dist inp city = true
    · obtain ⟨_, hlat, hlng, _⟩ := search_aroundus dist inp city hA
      exact ⟨_, _, hlat, hlng, checkCity_valid (Bool.and_elim_right hA)⟩
    · have hA2 : aroundus_valid dist inp city = false := Bool.eq_false_iff.mpr hA
      by_cases hI : illuminate_valid dist inp city = true
      · obtain ⟨_, hlat, hlng, _⟩ := search_illuminate dist inp city hA2 hI
        exact ⟨_, _, hlat, hlng, checkCity_valid (Bool.and_elim_right hI)⟩
      · by_cases hp : pnote_ok dist inp city = true
        · obtain ⟨_, hlat, hlng, _⟩ := search_pnote dist inp city hp
          exact ⟨_, _, hlat, hlng, checkCity_valid (Bool.and_elim_right hp)⟩
        · by_cases hfl : flickr_ok dist inp city = true
          · obtain ⟨_, hlat, hlng, _⟩ := search_flickr dist inp city hfl
            exact ⟨_, _, hlat, hlng, checkCity_valid (Bool.and_elim_right hfl)⟩
          · exfalso
            have hnone := search_none dist inp city hA2
              (Bool.eq_false_iff.mpr hI) (Bool.eq_false_iff.mpr hp)
              (Bool.eq_false_iff.mpr hfl)
            rw [hnone] at hfound
            exact Bool.false_ne_true hfound
  · intro dist pin city now hnf hsrc
    simp only [process_one, hnf] at hsrc
    rw [if_neg Bool.false_ne_true] at hsrc
    split at hsrc
    · exact absurd hsrc (by simp)
    · split at hsrc
      · exact absurd hsrc (by simp)
      · split at hsrc
        · next hv =>
          have hlast := Bool.and_elim_right hv
          rw [Bool.or_eq_true] at hlast
          rcases hlast with h | h
          · rw [validate_not_tracked (Or.inl (of_decide_eq_true h))]
          · exact h
        · split at hsrc
          · split at hsrc
            · exact absurd hsrc (by simp)
            · simp only [process_one.process_one_fallback] at hsrc
              split at hsrc
              · exact absurd hsrc (by simp)
              · exact absurd hsrc (by simp)
          · simp only [process_one.process_one_fallback] at hsrc
            split at hsrc
            · exact absurd hsrc (by simp)
            · exact absurd hsrc (by simp)
  · intro dist rs city r hr
    rw [pick_best_nominatim_result] at hr
    exact pickLoop_valid dist city rs none ⊤ (fun b hb => by simp at hb) r hr

/-- Witness for the amended C1 theorem: the searcher resolving from Catalog A
without a region code, a Vision resolution without a region code, and the
Nominatim selector returning its first non-zero result without a region
code - all trivially validated. -/
theorem region_validation_covers_catalog_and_fallback_sources_witness :
    (∃ la ln : ℚ,
      (search (fun _ _ _ _ => 0)
          ⟨true, false, false, false, ⟨true, 4, 5⟩, noResult, noResult,
            noResult⟩ "").lat = some la ∧
      (search (fun _ _ _ _ => 0)
          ⟨true, false, false, false, ⟨true, 4, 5⟩, noResult, noResult,
            noResult⟩ "").lng = some ln ∧
      (validate_city_coherence (fun _ _ _ _ => 0) la ln "").valid = true) ∧
    (validate_city_coherence (fun _ _ _ _ => 0) 7 8 "").valid = true ∧
    (validate_city_coherence (fun _ _ _ _ => 0) 2 3 "").valid = true := by
  refine ⟨?_, ?_, ?_⟩
  · exact region_validation_covers_catalog_and_fallback_sources.1
      (fun _ _ _ _ => 0)
      ⟨true, false, false, false, ⟨true, 4, 5⟩, noResult, noResult, noResult⟩
      "" rfl
  · exact region_validation_covers_catalog_and_fallback_sources.2.1
      (fun _ _ _ _ => 0)
      ⟨⟨false, none, none, none, ⟨"not_found", none⟩, [], none⟩,
        true, noResult, false, noResult, true, ⟨true, 7, 8⟩, "HIGH",
        false, none⟩
      "" "t" rfl rfl
  · exact region_validation_covers_catalog_and_fallback_sources.2.2
      (fun _ _ _ _ => 0) [⟨2, 3⟩] "" ⟨2, 3⟩
      (by norm_num [pick_best_nominatim_result, pickLoop, nearZero])

/-! ## Claim C2 -/

/-- Claim C2, counterexample: the IlluminateArt direct `@lat,lng` extraction
has no zero-sentinel test, so the near-zero coordinate `(0.005, 0.005)` is
accepted there and - when no region code constrains it - emitted by the
pipeline as the resolved coordinate. -/
theorem near_zero_coordinate_accepted_from_illuminate :
    nearZero 0.005 0.005 = true ∧
    illuminate_direct_accepted 0.005 0.005 = true ∧
    (search (fun _ _ _ _ => 0)
        ⟨false, true, false, false, noResult, ⟨true, 0.005, 0.005⟩, noResult,
          noResult⟩ "").found = true ∧
    (search (fun _ _ _ _ => 0)
        ⟨false, true, false, false, noResult, ⟨true, 0.005, 0.005⟩, noResult,
          noResult⟩ "").lat = some 0.005 ∧
    (search (fun _ _ _ _ => 0)
        ⟨false, true, false, false, noResult, ⟨true, 0.005, 0.005⟩, noResult,
          noResult⟩ "").lng = some 0.005 ∧
    (search (fun _ _ _ _ => 0)
        ⟨false, true, false, false, noResult, ⟨true, 0.005, 0.005⟩, noResult,
          noResult⟩ "").source = some "illuminateartofficial" := by
  refine ⟨nearZero_small, ?_, rfl, rfl, rfl, rfl⟩
  simp only [illuminate_direct_accepted, decide_eq_true_eq]
  norm_num

/-- Claim C2, amended: the zero sentinel is rejected by the EXIF, AroundUs,
Pnote and Flickr coordinate filters, by the interactive geocoding acceptance
and by the Nominatim result selection - but not by the IlluminateArt direct
extraction, as the counterexample shows. -/
theorem zero_sentinel_rejected_except_illuminate_direct :
    (∀ lat lng : ℚ, nearZero lat lng = true →
      exif_coord_accepted lat lng = false ∧
      aroundus_coord_accepted lat lng = false ∧
      pnote_coord_accepted lat lng = false ∧
      flickr_coord_accepted lat lng = false) ∧
    (∀ (results : List NomResult) (r : NomResult),
      interactive_geocode_accept results = some r →
      nearZero r.lat r.lng = false) ∧
    (∀ (dist : Dist) (rs : List NomResult) (city : String) (r : NomResult),
      pick_best_nominatim_result dist rs city = some r →
      nearZero r.lat r.lng = false) := by
  refine ⟨?_, ?_, ?_⟩
  · intro lat lng h
    refine ⟨by simp [exif_coord_accepted, h],
      by simp [aroundus_coord_accepted, h],
      by simp [pnote_coord_accepted, h], ?_⟩
    simp only [nearZero, Bool.and_eq_true, decide_eq_true_eq] at h
    obtain ⟨h1, h2⟩ := h
    simp only [flickr_coord_accepted, Bool.or_eq_false_iff,
      decide_eq_false_iff_not]
    push_neg
    exact ⟨le_of_lt h1, le_of_lt h2⟩
  · intro results r hr
    cases results with
    | nil => simp [interactive_geocode_accept] at hr
    | cons p rest =>
      simp only [interactive_geocode_accept] at hr
      split at hr
      · exact absurd hr (by simp)
      · next hz =>
        injection hr with h
        rw [← h]
        simpa using hz
  · intro dist rs city r hr
    rw [pick_best_nominatim_result] at hr
    exact pickLoop_nonzero dist city rs none ⊤ (fun b hb => by simp at hb) r hr

/-- Witness for the amended C2 theorem at the near-zero coordinate
`(0.005, 0.005)`. -/
theorem zero_sentinel_rejected_except_illuminate_direct_witness :
    exif_coord_accepted 0.005 0.005 = false ∧
    aroundus_coord_accepted 0.005 0.005 = false ∧
    pnote_coord_accepted 0.005 0.005 = false ∧
    flickr_coord_accepted 0.005 0.005 = false :=
  zero_sentinel_rejected_except_illuminate_direct.1 0.005 0.005 nearZero_small

end GeolocateMissing
